import Mathlib

/-!
Shallow embedding of the physics-integration layer of rg3d
(`src/scene/physics.rs`) and proofs about the claims of its specification.

Modelling conventions:
* `f32` scalars are modelled as `ℚ` (exact values; all claims are about
  structural behaviour, never about rounding).
* rapier solver handles (generation-tagged arena indices) are modelled as
  `Nat × Nat` pairs `(index, generation)`.
* engine handles (128-bit v4 UUIDs) are modelled as `Nat`; freshness of a
  newly minted UUID is made explicit as a parameter/hypothesis where needed.
* Rust panics (`unwrap`, failed `assert_eq!`) are modelled by `Option`-valued
  functions returning `none`.
* The structured log sink is modelled as a list of emitted message kinds.
-/

/-- Solver handle: rapier generational-arena index `(index, generation)`. -/
abbrev SolverHandle := Nat × Nat

/-- Engine handle: 128-bit UUID, modelled as a natural number. -/
abbrev EngineHandle := Nat

/-- Vector3 of f32, modelled with rational coordinates. -/
abbrev V3 := ℚ × ℚ × ℚ

/-- Unit quaternion of f32, modelled as four rational components. -/
abbrev Quat := ℚ × ℚ × ℚ × ℚ

/-- Message kind of the structured log sink (`utils::log::MessageKind`).
The message text is elided: the claims only count/classify messages. -/
inductive MessageKind where
  | Information : MessageKind
  | Warning : MessageKind
  | Error : MessageKind
deriving DecidableEq, Repr

/-- Association-list lookup by key (first match), used to model HashMap gets. -/
def lookupAssoc {α β : Type} [DecidableEq α] (l : List (α × β)) (k : α) : Option β :=
  (l.find? (fun p => p.1 = k)).map (fun p => p.2)

/-- Modelled from the spec (§4.1): `BiDirHashMap` lives in the engine core
crate, outside the provided sources.  It is an injective bidirectional mapping
engine-handle ↔ solver-handle with O(1) lookups; removing one side removes the
pair and no operation may leave the mapping non-injective.  Modelled as an
association list of pairs (content of the forward map). -/
structure BiDirHashMap (K V : Type) where
  forward : List (K × V)
deriving DecidableEq, Repr

/-- Lookup the solver-side value of an engine-side key (`BiDirHashMap::value_of`). -/
def BiDirHashMap.value_of {K V : Type} [DecidableEq K] (m : BiDirHashMap K V) (k : K) :
    Option V :=
  lookupAssoc m.forward k

/-- Lookup the engine-side key of a solver-side value (`BiDirHashMap::key_of`). -/
def BiDirHashMap.key_of {K V : Type} [DecidableEq V] (m : BiDirHashMap K V) (v : V) :
    Option K :=
  (m.forward.find? (fun p => p.2 = v)).map (fun p => p.1)

/-- Insert a pair, dropping any pair sharing the key or the value so that the
mapping stays injective in both directions (spec §4.1). -/
def BiDirHashMap.insert {K V : Type} [DecidableEq K] [DecidableEq V]
    (m : BiDirHashMap K V) (k : K) (v : V) : BiDirHashMap K V :=
  ⟨(m.forward.filter (fun p => p.1 ≠ k && p.2 ≠ v)) ++ [(k, v)]⟩

/-- Remove the pair holding the given key (`BiDirHashMap::remove_by_key`). -/
def BiDirHashMap.remove_by_key {K V : Type} [DecidableEq K]
    (m : BiDirHashMap K V) (k : K) : BiDirHashMap K V :=
  ⟨m.forward.filter (fun p => p.1 ≠ k)⟩

/-- Remove the pair holding the given value (`BiDirHashMap::remove_by_value`). -/
def BiDirHashMap.remove_by_value {K V : Type} [DecidableEq V]
    (m : BiDirHashMap K V) (v : V) : BiDirHashMap K V :=
  ⟨m.forward.filter (fun p => p.2 ≠ v)⟩

/-- Empty map (`Default for BiDirHashMap`). -/
def BiDirHashMap.empty {K V : Type} : BiDirHashMap K V := ⟨[]⟩

/-- BodyStatusDesc (`enum BodyStatusDesc`). -/
inductive BodyStatusDesc where
  | Dynamic : BodyStatusDesc
  | Static : BodyStatusDesc
  | Kinematic : BodyStatusDesc
deriving DecidableEq, Repr

/-- Ball shape descriptor (`struct BallDesc`). -/
structure BallDesc where
  radius : ℚ
deriving DecidableEq, Repr

/-- Cylinder shape descriptor (`struct CylinderDesc`). -/
structure CylinderDesc where
  half_height : ℚ
  radius : ℚ
deriving DecidableEq, Repr

/-- Round cylinder shape descriptor (`struct RoundCylinderDesc`). -/
structure RoundCylinderDesc where
  half_height : ℚ
  radius : ℚ
  border_radius : ℚ
deriving DecidableEq, Repr

/-- Cone shape descriptor (`struct ConeDesc`). -/
structure ConeDesc where
  half_height : ℚ
  radius : ℚ
deriving DecidableEq, Repr

/-- Cuboid shape descriptor (`struct CuboidDesc`). -/
structure CuboidDesc where
  half_extents : V3
deriving DecidableEq, Repr

/-- Capsule shape descriptor (`struct CapsuleDesc`). -/
structure CapsuleDesc where
  begin_ : V3
  end_ : V3
  radius : ℚ
deriving DecidableEq, Repr

/-- Segment shape descriptor (`struct SegmentDesc`). -/
structure SegmentDesc where
  begin_ : V3
  end_ : V3
deriving DecidableEq, Repr

/-- Triangle shape descriptor (`struct TriangleDesc`). -/
structure TriangleDesc where
  a : V3
  b : V3
  c : V3
deriving DecidableEq, Repr

/-- Trimesh placeholder descriptor (`struct TrimeshDesc`): carries no data,
the triangle geometry is deliberately not persisted. -/
structure TrimeshDesc where
deriving DecidableEq, Repr

/-- Heightfield placeholder descriptor (`struct HeightfieldDesc`). -/
structure HeightfieldDesc where
deriving DecidableEq, Repr

/-- Collider shape descriptor (`enum ColliderShapeDesc`). -/
inductive ColliderShapeDesc where
  | Ball : BallDesc → ColliderShapeDesc
  | Cylinder : CylinderDesc → ColliderShapeDesc
  | RoundCylinder : RoundCylinderDesc → ColliderShapeDesc
  | Cone : ConeDesc → ColliderShapeDesc
  | Cuboid : CuboidDesc → ColliderShapeDesc
  | Capsule : CapsuleDesc → ColliderShapeDesc
  | Segment : SegmentDesc → ColliderShapeDesc
  | Triangle : TriangleDesc → ColliderShapeDesc
  | Trimesh : TrimeshDesc → ColliderShapeDesc
  | Heightfield : HeightfieldDesc → ColliderShapeDesc
deriving DecidableEq, Repr

/-- Stable discriminant of a shape descriptor (`ColliderShapeDesc::id`). -/
def ColliderShapeDesc.id : ColliderShapeDesc → Nat
  | .Ball _ => 0
  | .Cylinder _ => 1
  | .RoundCylinder _ => 2
  | .Cone _ => 3
  | .Cuboid _ => 4
  | .Capsule _ => 5
  | .Segment _ => 6
  | .Triangle _ => 7
  | .Trimesh _ => 8
  | .Heightfield _ => 9

/-- Default payloads for the shape descriptor structs
(the `Default` derive of the Rust structs: all-zero fields). -/
def BallDesc.default : BallDesc := ⟨0⟩

/-- Default cylinder payload. -/
def CylinderDesc.default : CylinderDesc := ⟨0, 0⟩

/-- Default round cylinder payload. -/
def RoundCylinderDesc.default : RoundCylinderDesc := ⟨0, 0, 0⟩

/-- Default cone payload. -/
def ConeDesc.default : ConeDesc := ⟨0, 0⟩

/-- Default cuboid payload. -/
def CuboidDesc.default : CuboidDesc := ⟨(0, 0, 0)⟩

/-- Default capsule payload. -/
def CapsuleDesc.default : CapsuleDesc := ⟨(0, 0, 0), (0, 0, 0), 0⟩

/-- Default segment payload. -/
def SegmentDesc.default : SegmentDesc := ⟨(0, 0, 0), (0, 0, 0)⟩

/-- Default triangle payload. -/
def TriangleDesc.default : TriangleDesc := ⟨(0, 0, 0), (0, 0, 0), (0, 0, 0)⟩

/-- Decode a shape discriminant (`ColliderShapeDesc::from_id`): discriminants
0..=9 decode to the corresponding variant with default payload, anything else
is a hard deserialization error. -/
def ColliderShapeDesc.from_id (id : Nat) : Except String ColliderShapeDesc :=
  match id with
  | 0 => Except.ok (ColliderShapeDesc.Ball BallDesc.default)
  | 1 => Except.ok (ColliderShapeDesc.Cylinder CylinderDesc.default)
  | 2 => Except.ok (ColliderShapeDesc.RoundCylinder RoundCylinderDesc.default)
  | 3 => Except.ok (ColliderShapeDesc.Cone ConeDesc.default)
  | 4 => Except.ok (ColliderShapeDesc.Cuboid CuboidDesc.default)
  | 5 => Except.ok (ColliderShapeDesc.Capsule CapsuleDesc.default)
  | 6 => Except.ok (ColliderShapeDesc.Segment SegmentDesc.default)
  | 7 => Except.ok (ColliderShapeDesc.Triangle TriangleDesc.default)
  | 8 => Except.ok (ColliderShapeDesc.Trimesh ⟨⟩)
  | 9 => Except.ok (ColliderShapeDesc.Heightfield ⟨⟩)
  | _ => Except.error ("Invalid collider shape desc id " ++ toString id ++ "!")

/-- Ball joint descriptor (`struct BallJointDesc`). -/
structure BallJointDesc where
  local_anchor1 : V3
  local_anchor2 : V3
deriving DecidableEq, Repr

/-- Fixed joint descriptor (`struct FixedJointDesc`). -/
structure FixedJointDesc where
  local_anchor1_translation : V3
  local_anchor1_rotation : Quat
  local_anchor2_translation : V3
  local_anchor2_rotation : Quat
deriving DecidableEq, Repr

/-- Prismatic joint descriptor (`struct PrismaticJointDesc`). -/
structure PrismaticJointDesc where
  local_anchor1 : V3
  local_axis1 : V3
  local_anchor2 : V3
  local_axis2 : V3
deriving DecidableEq, Repr

/-- Revolute joint descriptor (`struct RevoluteJointDesc`). -/
structure RevoluteJointDesc where
  local_anchor1 : V3
  local_axis1 : V3
  local_anchor2 : V3
  local_axis2 : V3
deriving DecidableEq, Repr

/-- Joint parameters descriptor (`enum JointParamsDesc`). -/
inductive JointParamsDesc where
  | BallJoint : BallJointDesc → JointParamsDesc
  | FixedJoint : FixedJointDesc → JointParamsDesc
  | PrismaticJoint : PrismaticJointDesc → JointParamsDesc
  | RevoluteJoint : RevoluteJointDesc → JointParamsDesc
deriving DecidableEq, Repr

/-- Stable discriminant of a joint descriptor (`JointParamsDesc::id`). -/
def JointParamsDesc.id : JointParamsDesc → Nat
  | .BallJoint _ => 0
  | .FixedJoint _ => 1
  | .PrismaticJoint _ => 2
  | .RevoluteJoint _ => 3

/-- Default ball joint payload. -/
def BallJointDesc.default : BallJointDesc := ⟨(0, 0, 0), (0, 0, 0)⟩

/-- Default fixed joint payload (identity rotations are irrelevant to claims;
the `Default` derive zero-initializes the quaternion parts the same way on
both sides of any comparison made here). -/
def FixedJointDesc.default : FixedJointDesc :=
  ⟨(0, 0, 0), (0, 0, 0, 1), (0, 0, 0), (0, 0, 0, 1)⟩

/-- Default prismatic joint payload. -/
def PrismaticJointDesc.default : PrismaticJointDesc :=
  ⟨(0, 0, 0), (0, 0, 0), (0, 0, 0), (0, 0, 0)⟩

/-- Default revolute joint payload. -/
def RevoluteJointDesc.default : RevoluteJointDesc :=
  ⟨(0, 0, 0), (0, 0, 0), (0, 0, 0), (0, 0, 0)⟩

/-- Decode a joint discriminant (`JointParamsDesc::from_id`): discriminants
0..=3 decode to the corresponding variant, anything else is a hard error. -/
def JointParamsDesc.from_id (id : Nat) : Except String JointParamsDesc :=
  match id with
  | 0 => Except.ok (JointParamsDesc.BallJoint BallJointDesc.default)
  | 1 => Except.ok (JointParamsDesc.FixedJoint FixedJointDesc.default)
  | 2 => Except.ok (JointParamsDesc.PrismaticJoint PrismaticJointDesc.default)
  | 3 => Except.ok (JointParamsDesc.RevoluteJoint RevoluteJointDesc.default)
  | _ => Except.error ("Invalid joint param desc id " ++ toString id ++ "!")

/-- Live collider shape held by the solver (rapier `SharedShape`), restricted
to the variants the descriptor layer handles.  Trimesh carries its (derived)
triangle geometry; heightfield carries its height matrix data flattened. -/
inductive ColliderShape where
  | ball : ℚ → ColliderShape
  | cylinder : ℚ → ℚ → ColliderShape
  | roundCylinder : ℚ → ℚ → ℚ → ColliderShape
  | cone : ℚ → ℚ → ColliderShape
  | cuboid : V3 → ColliderShape
  | capsule : V3 → V3 → ℚ → ColliderShape
  | segment : V3 → V3 → ColliderShape
  | triangle : V3 → V3 → V3 → ColliderShape
  | trimesh : List V3 → List (Nat × Nat × Nat) → ColliderShape
  | heightfield : List ℚ → ColliderShape
deriving DecidableEq, Repr

/-- Snapshot a live shape into its descriptor
(`ColliderShapeDesc::from_collider_shape`): lossless for the primitive shapes,
while trimesh and heightfield deliberately drop their bulk data. -/
def ColliderShapeDesc.from_collider_shape : ColliderShape → ColliderShapeDesc
  | .ball r => .Ball ⟨r⟩
  | .cylinder hh r => .Cylinder ⟨hh, r⟩
  | .roundCylinder hh r br => .RoundCylinder ⟨hh, r, br⟩
  | .cone hh r => .Cone ⟨hh, r⟩
  | .cuboid he => .Cuboid ⟨he⟩
  | .capsule a b r => .Capsule ⟨a, b, r⟩
  | .segment a b => .Segment ⟨a, b⟩
  | .triangle a b c => .Triangle ⟨a, b, c⟩
  | .trimesh _ _ => .Trimesh ⟨⟩
  | .heightfield _ => .Heightfield ⟨⟩

/-- Materialize a descriptor into a live shape
(`ColliderShapeDesc::into_collider_shape`).  The trimesh placeholder becomes
the fake single-triangle mesh the source builds (it is replaced with real
geometry at resolve time); the heightfield placeholder becomes the fixed
2-by-2 matrix of the source. -/
def ColliderShapeDesc.into_collider_shape : ColliderShapeDesc → ColliderShape
  | .Ball v => .ball v.radius
  | .Cylinder v => .cylinder v.half_height v.radius
  | .RoundCylinder v => .roundCylinder v.half_height v.radius v.border_radius
  | .Cone v => .cone v.half_height v.radius
  | .Cuboid v => .cuboid v.half_extents
  | .Capsule v => .capsule v.begin_ v.end_ v.radius
  | .Segment v => .segment v.begin_ v.end_
  | .Triangle v => .triangle v.a v.b v.c
  | .Trimesh _ => .trimesh [(0, 0, 1), (1, 0, 1), (1, 0, 0)] [(0, 1, 2)]
  | .Heightfield _ => .heightfield [0, 1, 0, 0]

/-- Live joint parameters (rapier `JointParams`), restricted to the data the
descriptor layer persists.  Axes are stored as unit vectors; the source's
float re-normalization on conversion (`Unit::new_normalize`) is the identity
on already-unit axes and is modelled as such. -/
inductive JointParams where
  | BallJoint : V3 → V3 → JointParams
  | FixedJoint : V3 → Quat → V3 → Quat → JointParams
  | PrismaticJoint : V3 → V3 → V3 → V3 → JointParams
  | RevoluteJoint : V3 → V3 → V3 → V3 → JointParams
deriving DecidableEq, Repr

/-- Snapshot live joint parameters (`JointParamsDesc::from_params`). -/
def JointParamsDesc.from_params : JointParams → JointParamsDesc
  | .BallJoint a1 a2 => .BallJoint ⟨a1, a2⟩
  | .FixedJoint t1 r1 t2 r2 => .FixedJoint ⟨t1, r1, t2, r2⟩
  | .PrismaticJoint a1 x1 a2 x2 => .PrismaticJoint ⟨a1, x1, a2, x2⟩
  | .RevoluteJoint a1 x1 a2 x2 => .RevoluteJoint ⟨a1, x1, a2, x2⟩

/-- Materialize joint parameters (the `Into<JointParams>` impl of
`JointParamsDesc`). -/
def JointParamsDesc.into_params : JointParamsDesc → JointParams
  | .BallJoint v => .BallJoint v.local_anchor1 v.local_anchor2
  | .FixedJoint v => .FixedJoint v.local_anchor1_translation v.local_anchor1_rotation
      v.local_anchor2_translation v.local_anchor2_rotation
  | .PrismaticJoint v => .PrismaticJoint v.local_anchor1 v.local_axis1
      v.local_anchor2 v.local_axis2
  | .RevoluteJoint v => .RevoluteJoint v.local_anchor1 v.local_axis1
      v.local_anchor2 v.local_axis2

/-- Live rigid body (rapier `RigidBody`), modelled by exactly the defining
state the descriptor layer reads and writes; `colliders` is the solver-side
list of attached collider handles maintained by the collider set. -/
structure RigidBody where
  position : V3
  rotation : Quat
  linvel : V3
  angvel : V3
  sleeping : Bool
  status : BodyStatusDesc
  colliders : List SolverHandle
  mass : ℚ
  x_rotation_locked : Bool
  y_rotation_locked : Bool
  z_rotation_locked : Bool
  translation_locked : Bool
deriving DecidableEq, Repr

/-- Live collider (rapier `Collider`). -/
structure Collider where
  shape : ColliderShape
  parent : SolverHandle
  friction : ℚ
  density : Option ℚ
  restitution : ℚ
  is_sensor : Bool
  translation : V3
  rotation : Quat
  collision_groups : Nat
  solver_groups : Nat
deriving DecidableEq, Repr

/-- Live joint (rapier `Joint`). -/
structure Joint where
  body1 : SolverHandle
  body2 : SolverHandle
  params : JointParams
deriving DecidableEq, Repr

/-- Generational arena (rapier entity sets).  `items` is kept in iteration
order; `next_index` counts insertions so that a handle is never reused.  On a
freshly created set, consecutive inserts produce handles `(0,0), (1,0), ...`
exactly as in rapier (which `resolve` relies on); after removals rapier reuses
slots with a bumped generation while this model keeps advancing the index —
both schemes mint fresh, never-seen handles, and handles are opaque. -/
structure Arena (α : Type) where
  items : List (SolverHandle × α)
  next_index : Nat
deriving DecidableEq, Repr

/-- Empty arena. -/
def Arena.empty {α : Type} : Arena α := ⟨[], 0⟩

/-- Insert into the arena, returning the minted solver handle. -/
def Arena.insert {α : Type} (a : Arena α) (x : α) : Arena α × SolverHandle :=
  (⟨a.items ++ [((a.next_index, 0), x)], a.next_index + 1⟩, (a.next_index, 0))

/-- Handle-checked arena lookup. -/
def Arena.get? {α : Type} (a : Arena α) (h : SolverHandle) : Option α :=
  (a.items.find? (fun p => p.1 = h)).map (fun p => p.2)

/-- Number of live entities (`len`). -/
def Arena.len {α : Type} (a : Arena α) : Nat := a.items.length

/-- IntegrationParametersDesc (`struct IntegrationParametersDesc`): a plain
copy of rapier's integration configuration.  No claim inspects these values. -/
structure IntegrationParametersDesc where
  dt : ℚ
  erp : ℚ
  min_ccd_dt : ℚ
  joint_erp : ℚ
  warmstart_coeff : ℚ
  warmstart_correction_slope : ℚ
  velocity_solve_fraction : ℚ
  velocity_based_erp : ℚ
  allowed_linear_error : ℚ
  prediction_distance : ℚ
  allowed_angular_error : ℚ
  max_linear_correction : ℚ
  max_angular_correction : ℚ
  max_velocity_iterations : Nat
  max_position_iterations : Nat
  min_island_size : Nat
  max_ccd_substeps : Nat
deriving DecidableEq, Repr

/-- Default integration parameters (rapier `IntegrationParameters::default`). -/
def IntegrationParametersDesc.default : IntegrationParametersDesc :=
  ⟨1/60, 1/5, 1/100, 1/5, 1, 1/10, 1, 1/4, 1/1000, 1/500, 1/1000, 1/5, 1/5, 4, 1, 128, 1⟩

/-- Rigid body descriptor (`struct RigidBodyDesc<C>` at `C = ColliderHandle`,
the only instantiation the descriptor set uses). -/
structure RigidBodyDesc where
  position : V3
  rotation : Quat
  linvel : V3
  angvel : V3
  sleeping : Bool
  status : BodyStatusDesc
  colliders : List EngineHandle
  mass : ℚ
  x_rotation_locked : Bool
  y_rotation_locked : Bool
  z_rotation_locked : Bool
  translation_locked : Bool
deriving DecidableEq, Repr

/-- Snapshot a live body (`RigidBodyDesc::from_body`).  The source maps each
attached collider's solver handle through the collider translation table with
`.unwrap()` — a panic when a handle is unregistered; under the translation
table invariant every attached collider is registered, and on that domain the
`filterMap` used here agrees with the source. -/
def RigidBodyDesc.from_body (body : RigidBody)
    (handle_map : BiDirHashMap EngineHandle SolverHandle) : RigidBodyDesc :=
  { position := body.position
    rotation := body.rotation
    linvel := body.linvel
    angvel := body.angvel
    sleeping := body.sleeping
    status := body.status
    colliders := body.colliders.filterMap handle_map.key_of
    mass := body.mass
    x_rotation_locked := body.x_rotation_locked
    y_rotation_locked := body.y_rotation_locked
    z_rotation_locked := body.z_rotation_locked
    translation_locked := body.translation_locked }

/-- Materialize a body descriptor (`RigidBodyDesc::convert_to_body`): the
builder sets position, velocities, status, lock flags and mass
(`additional_mass`); the body starts with no attached colliders — they are
attached by the collider set on insertion. -/
def RigidBodyDesc.convert_to_body (d : RigidBodyDesc) : RigidBody :=
  { position := d.position
    rotation := d.rotation
    linvel := d.linvel
    angvel := d.angvel
    sleeping := d.sleeping
    status := d.status
    colliders := []
    mass := d.mass
    x_rotation_locked := d.x_rotation_locked
    y_rotation_locked := d.y_rotation_locked
    z_rotation_locked := d.z_rotation_locked
    translation_locked := d.translation_locked }

/-- Collider descriptor (`struct ColliderDesc<R>` at `R = RigidBodyHandle`). -/
structure ColliderDesc where
  shape : ColliderShapeDesc
  parent : EngineHandle
  friction : ℚ
  density : Option ℚ
  restitution : ℚ
  is_sensor : Bool
  translation : V3
  rotation : Quat
  collision_groups : Nat
  solver_groups : Nat
deriving DecidableEq, Repr

/-- Snapshot a live collider (`ColliderDesc::from_collider`).  The source
resolves the parent body's engine handle with `.unwrap()` (panic when the
parent is unregistered); the translation table invariant guarantees
registration, under which the `getD 0` default here is never taken. -/
def ColliderDesc.from_collider (c : Collider)
    (handle_map : BiDirHashMap EngineHandle SolverHandle) : ColliderDesc :=
  { shape := ColliderShapeDesc.from_collider_shape c.shape
    parent := (handle_map.key_of c.parent).getD 0
    friction := c.friction
    density := c.density
    restitution := c.restitution
    is_sensor := c.is_sensor
    translation := c.translation
    rotation := c.rotation
    collision_groups := c.collision_groups
    solver_groups := c.solver_groups }

/-- Materialize a collider descriptor (`ColliderDesc::convert_to_collider`),
returning the built collider and the engine handle of its parent body.  The
built collider's `parent` field is assigned by the collider set on insertion;
until then it holds the dummy handle the builder leaves. -/
def ColliderDesc.convert_to_collider (d : ColliderDesc) : Collider × EngineHandle :=
  ({ shape := d.shape.into_collider_shape
     parent := (0, 0)
     friction := d.friction
     density := d.density
     restitution := d.restitution
     is_sensor := d.is_sensor
     translation := d.translation
     rotation := d.rotation
     collision_groups := d.collision_groups
     solver_groups := d.solver_groups }, d.parent)

/-- Joint descriptor (`struct JointDesc<R>` at `R = RigidBodyHandle`). -/
structure JointDesc where
  body1 : EngineHandle
  body2 : EngineHandle
  params : JointParamsDesc
deriving DecidableEq, Repr

/-- Snapshot a live joint (`JointDesc::from_joint`); endpoint handles are
resolved through the body translation table (`.unwrap()` in the source — the
`getD 0` default is never taken under the table invariant). -/
def JointDesc.from_joint (j : Joint)
    (handle_map : BiDirHashMap EngineHandle SolverHandle) : JointDesc :=
  { body1 := (handle_map.key_of j.body1).getD 0
    body2 := (handle_map.key_of j.body2).getD 0
    params := JointParamsDesc.from_params j.params }

/-- Descriptor set (`struct PhysicsDesc`): the only persisted form. -/
structure PhysicsDesc where
  integration_parameters : IntegrationParametersDesc
  colliders : List ColliderDesc
  bodies : List RigidBodyDesc
  gravity : V3
  joints : List JointDesc
  body_handle_map : BiDirHashMap EngineHandle SolverHandle
  collider_handle_map : BiDirHashMap EngineHandle SolverHandle
  joint_handle_map : BiDirHashMap EngineHandle SolverHandle
deriving DecidableEq, Repr

/-- Physics world (`struct Physics`).  The solver singletons (pipelines,
broad/narrow phase, CCD solver, event handler) carry no claim-relevant state
and are omitted; the ray-query acceleration structure is rebuilt from the
entity sets on every cast and is therefore represented by them. -/
structure Physics where
  gravity : V3
  integration_parameters : IntegrationParametersDesc
  bodies : Arena RigidBody
  colliders : Arena Collider
  joints : Arena Joint
  desc : Option PhysicsDesc
  body_handle_map : BiDirHashMap EngineHandle SolverHandle
  collider_handle_map : BiDirHashMap EngineHandle SolverHandle
  joint_handle_map : BiDirHashMap EngineHandle SolverHandle
deriving DecidableEq, Repr

/-- Fresh physics world (`Physics::new`). -/
def Physics.new : Physics :=
  { gravity := (0, -981/100, 0)
    integration_parameters := IntegrationParametersDesc.default
    bodies := Arena.empty
    colliders := Arena.empty
    joints := Arena.empty
    desc := none
    body_handle_map := BiDirHashMap.empty
    collider_handle_map := BiDirHashMap.empty
    joint_handle_map := BiDirHashMap.empty }

/-- Handle-checked body accessor (`Physics::body`). -/
def Physics.body (self : Physics) (handle : EngineHandle) : Option RigidBody :=
  (self.body_handle_map.value_of handle).bind self.bodies.get?

/-- Handle-checked collider accessor (`Physics::collider`). -/
def Physics.collider (self : Physics) (handle : EngineHandle) : Option Collider :=
  (self.collider_handle_map.value_of handle).bind self.colliders.get?

/-- Joint resolution through the joint translation table (composition of the
public `joint_handle_map()` and `joints()` accessors; the world exposes no
dedicated `joint(handle)` method). -/
def Physics.joint_of (self : Physics) (handle : EngineHandle) : Option Joint :=
  (self.joint_handle_map.value_of handle).bind self.joints.get?

/-- Collider-set insertion with parent attachment (rapier
`ColliderSet::insert(collider, parent, bodies)`): assigns the collider's
parent handle and appends the new collider handle to the parent body's
attached-collider list. -/
def insertColliderWith (colliders : Arena Collider) (bodies : Arena RigidBody)
    (c : Collider) (parent : SolverHandle) :
    Arena Collider × Arena RigidBody × SolverHandle :=
  let step := colliders.insert { c with parent := parent }
  (step.1,
   ⟨bodies.items.map (fun q =>
      if q.1 = parent then (q.1, { q.2 with colliders := q.2.colliders ++ [step.2] }) else q),
    bodies.next_index⟩,
   step.2)

/-- Add a rigid body (`Physics::add_body`).  `fresh` is the UUID minted by
`Uuid::new_v4()`, made explicit as a parameter. -/
def Physics.add_body (self : Physics) (rigid_body : RigidBody) (fresh : EngineHandle) :
    Physics × EngineHandle :=
  let step := self.bodies.insert rigid_body
  ({ self with
      bodies := step.1
      body_handle_map := self.body_handle_map.insert fresh step.2 }, fresh)

/-- Add a collider (`Physics::add_collider`).  The source resolves the owning
body's solver handle with `.unwrap()`: an unregistered body handle panics
(modelled as `none`) rather than returning a recoverable result. -/
def Physics.add_collider (self : Physics) (collider : Collider)
    (rigid_body : EngineHandle) (fresh : EngineHandle) : Option (Physics × EngineHandle) :=
  match self.body_handle_map.value_of rigid_body with
  | none => none
  | some parent =>
    let step := insertColliderWith self.colliders self.bodies collider parent
    some ({ self with
        colliders := step.1
        bodies := step.2.1
        collider_handle_map := self.collider_handle_map.insert fresh step.2.2 }, fresh)

/-- Add a joint (`Physics::add_joint`).  Both body handles are resolved with
`.unwrap()`: an unregistered handle panics (modelled as `none`). -/
def Physics.add_joint (self : Physics) (body1 body2 : EngineHandle)
    (joint_params : JointParams) (fresh : EngineHandle) : Option (Physics × EngineHandle) :=
  match self.body_handle_map.value_of body1, self.body_handle_map.value_of body2 with
  | some b1, some b2 =>
    let step := self.joints.insert { body1 := b1, body2 := b2, params := joint_params }
    some ({ self with
        joints := step.1
        joint_handle_map := self.joint_handle_map.insert fresh step.2 }, fresh)
  | _, _ => none

/-- Remove a rigid body (`Physics::remove_body`).  The solver-side removal
(rapier `RigidBodySet::remove(h, colliders, joints)`) cascades: it detaches and
removes the body's colliders and every joint referencing the body, returning
the removed body.  The source then purges the collider translation table
entries of the removed colliders and the body's own translation table entry —
and nothing else. -/
def Physics.remove_body (self : Physics) (rigid_body : EngineHandle) :
    Physics × Option RigidBody :=
  match self.body_handle_map.value_of rigid_body with
  | none => (self, none)
  | some h =>
    match self.bodies.get? h with
    | none => (self, none)
    | some body =>
      let bodies2 : Arena RigidBody :=
        ⟨self.bodies.items.filter (fun p => p.1 ≠ h), self.bodies.next_index⟩
      let colliders2 : Arena Collider :=
        ⟨self.colliders.items.filter (fun p => p.1 ∉ body.colliders),
         self.colliders.next_index⟩
      let joints2 : Arena Joint :=
        ⟨self.joints.items.filter (fun p => p.2.body1 ≠ h && p.2.body2 ≠ h),
         self.joints.next_index⟩
      let colliderMap2 :=
        body.colliders.foldl (fun m ch => m.remove_by_value ch) self.collider_handle_map
      ({ self with
          bodies := bodies2
          colliders := colliders2
          joints := joints2
          collider_handle_map := colliderMap2
          body_handle_map := self.body_handle_map.remove_by_key rigid_body },
       some body)

/-- Dense remapping of a translation table (`Physics::generate_desc`, the
per-kind block): each live solver handle is replaced by `(i, 0)` where `i` is
its position in the arena's iteration order.  The source builds the dense map
with a `HashMap` indexing (`dense_map[rapier_handle]`, a panic for a handle
absent from the arena); under the translation table invariant every mapped
handle is live, where `List.indexOf` agrees.  The source's `insert` loop over
the (injective) forward map builds exactly the entry list mapped here. -/
def denseRemap (keys : List SolverHandle)
    (m : BiDirHashMap EngineHandle SolverHandle) :
    BiDirHashMap EngineHandle SolverHandle :=
  ⟨m.forward.map (fun p => (p.1, ((keys.indexOf p.2, 0) : SolverHandle)))⟩

/-- Generate a descriptor set snapshot from live state
(`Physics::generate_desc`): one descriptor per live entity in iteration
order, plus the three translation tables with solver handles densely
renumbered `0..N` (generation 0). -/
def Physics.generate_desc (self : Physics) : PhysicsDesc :=
  { integration_parameters := self.integration_parameters
    bodies := self.bodies.items.map
      (fun p => RigidBodyDesc.from_body p.2 self.collider_handle_map)
    colliders := self.colliders.items.map
      (fun p => ColliderDesc.from_collider p.2 self.body_handle_map)
    gravity := self.gravity
    joints := self.joints.items.map
      (fun p => JointDesc.from_joint p.2 self.body_handle_map)
    body_handle_map := denseRemap (self.bodies.items.map Prod.fst) self.body_handle_map
    collider_handle_map :=
      denseRemap (self.colliders.items.map Prod.fst) self.collider_handle_map
    joint_handle_map := denseRemap (self.joints.items.map Prod.fst) self.joint_handle_map }

/-- Handle of a scene graph node (`Handle<Node>`), modelled as a pool index. -/
abbrev NodeHandle := Nat

/-- Baked triangle: three world-space-baked vertices. -/
abbrev Tri := V3 × V3 × V3

/-- Scene graph node.  `is_mesh` marks `Node::Mesh` nodes; `triangles` holds
the node's surface triangles with the relative transform of the source
(root-inverse composed with the mesh's global transform, an f32 computation)
already baked into the vertex coordinates, which is exact for the structural
claims here; children are inlined (the scene graph is a tree). -/
inductive SceneNode where
  | node : Bool → List Tri → List SceneNode → SceneNode

/-- Triangles contributed by a subtree, in the order of the source's explicit
stack traversal (the stack pops children last-in-first-out, so children are
visited right to left). -/
def SceneNode.collect : SceneNode → List Tri
  | .node is_mesh tris children =>
    (if is_mesh then tris else []) ++
      (children.attach.reverse.map (fun c => SceneNode.collect c.1)).flatten
termination_by n => sizeOf n
decreasing_by
  have h1 : sizeOf c.1 < sizeOf children := List.sizeOf_lt_of_mem c.2
  simp only [SceneNode.node.sizeOf_spec]
  omega

/-- Scene graph (`Graph`): a pool of nodes; a handle is valid when its pool
slot is occupied. -/
structure Graph where
  nodes : List (Option SceneNode)

/-- Handle validity check (`Graph::is_valid_handle`). -/
def Graph.is_valid_handle (g : Graph) (h : NodeHandle) : Bool :=
  match g.nodes.get? h with
  | some (some _) => true
  | _ => false

/-- Triangles of the subtree rooted at a handle.  `resolve` and
`mesh_to_trimesh` only call `make_trimesh` on valid handles (`graph[root]`
panics otherwise); an invalid root contributes no triangles here. -/
def Graph.collect_from (g : Graph) (root : NodeHandle) : List Tri :=
  match g.nodes.get? root with
  | some (some n) => n.collect
  | _ => []

/-- Insert one vertex into the raw mesh vertex list, welding exact
duplicates; returns the (possibly extended) list and the vertex index. -/
def rawMeshAddVertex (vs : List V3) (v : V3) : List V3 × Nat :=
  match vs.findIdx? (fun w => w = v) with
  | some i => (vs, i)
  | none => (vs ++ [v], vs.length)

/-- Modelled from the spec (§4.2): `RawMeshBuilder` (utils/raw_mesh.rs, not
among the provided sources) accumulates inserted vertices, welds/deduplicates
exact duplicates, and produces the vertex list plus one index triple per three
inserted vertices. -/
def rawMeshBuild (tris : List Tri) : List V3 × List (Nat × Nat × Nat) :=
  tris.foldl
    (fun acc t =>
      let sa := rawMeshAddVertex acc.1 t.1
      let sb := rawMeshAddVertex sa.1 t.2.1
      let sc := rawMeshAddVertex sb.1 t.2.2
      (sc.1, acc.2 ++ [(sa.2, sb.2, sc.2)]))
    ([], [])

/-- Build a trimesh collider shape from a node subtree
(`Physics::make_trimesh`), returning the shape together with the log messages
emitted.  When the subtree yields no triangles, the source logs one warning
and substitutes the degenerate single-point placeholder trimesh
(`vertices = [(0,0,0)]`, `indices = [[0,0,0]]`) instead of failing. -/
def Physics.make_trimesh (root : NodeHandle) (graph : Graph) :
    ColliderShape × List MessageKind :=
  let raw := rawMeshBuild (graph.collect_from root)
  if raw.2.isEmpty then
    (ColliderShape.trimesh [(0, 0, 0)] [(0, 0, 0)], [MessageKind.Warning])
  else
    (ColliderShape.trimesh raw.1 raw.2, [])

/-- Node binding collaborator (`PhysicsBinder<Node>`): the body→node side
queried during resolve (`binder.node_of(body_engine_handle)`). -/
abbrev Binder := List (EngineHandle × NodeHandle)

/-- Default-built collider (rapier `ColliderBuilder::new(shape).build()`):
used by the resolve/embed trimesh paths, which rebuild the collider from the
bare shape and builder defaults, discarding the descriptor's material and
local-transform fields. -/
def defaultBuiltCollider (shape : ColliderShape) : Collider :=
  { shape := shape
    parent := (0, 0)
    friction := 1/2
    density := none
    restitution := 0
    is_sensor := false
    translation := (0, 0, 0)
    rotation := (0, 0, 0, 1)
    collision_groups := 4294967295
    solver_groups := 4294967295 }

/-- One iteration of the collider loop of `Physics::resolve` (source lines
751-789), acting on the collider and body sets and the log, with the body
translation table already restored from the descriptor set.  A trimesh
descriptor whose owning body has a node binding to a valid node is rebuilt
via `make_trimesh`; with an invalid node it is skipped with an error logged;
with no binding at all the `if let` falls through and it is skipped silently.
Any other shape is deserialized directly.  `none` models the source's
`.unwrap()` panic on an unregistered parent handle. -/
def resolveColliderStep (binder : Binder) (graph : Graph)
    (body_handle_map : BiDirHashMap EngineHandle SolverHandle)
    (st : Arena Collider × Arena RigidBody × List MessageKind)
    (desc : ColliderDesc) :
    Option (Arena Collider × Arena RigidBody × List MessageKind) :=
  match desc.shape with
  | ColliderShapeDesc.Trimesh _ =>
    match lookupAssoc binder desc.parent with
    | some associated_node =>
      if graph.is_valid_handle associated_node then
        let made := Physics.make_trimesh associated_node graph
        match body_handle_map.value_of desc.parent with
        | none => none
        | some parent =>
          let ins := insertColliderWith st.1 st.2.1 (defaultBuiltCollider made.1) parent
          some (ins.1, ins.2.1, st.2.2 ++ made.2 ++ [MessageKind.Information])
      else
        some (st.1, st.2.1, st.2.2 ++ [MessageKind.Error])
    | none => some st
  | _ =>
    let built := desc.convert_to_collider
    match body_handle_map.value_of built.2 with
    | none => none
    | some parent =>
      let ins := insertColliderWith st.1 st.2.1 built.1 parent
      some (ins.1, ins.2.1, st.2.2)

/-- One iteration of the joint loop of `Physics::resolve` (source lines
791-803): both endpoint engine handles are resolved through the restored body
translation table (`.unwrap()`, modelled as `none` on failure) and the joint
is inserted. -/
def resolveJointStep (body_handle_map : BiDirHashMap EngineHandle SolverHandle)
    (a : Arena Joint) (desc : JointDesc) : Option (Arena Joint) :=
  match body_handle_map.value_of desc.body1, body_handle_map.value_of desc.body2 with
  | some b1, some b2 =>
    some (a.insert { body1 := b1, body2 := b2, params := desc.params.into_params }).1
  | _, _ => none

/-- Materialize the pending descriptor set (`Physics::resolve`).  Requires a
world with no live bodies/colliders (the source's `assert_eq!`) and a pending
descriptor set (`.take().unwrap()`); restores the three translation tables
verbatim, materializes bodies, then colliders (with trimesh geometry recovery
through the node binding), then joints.  Returns the resolved world and the
log messages emitted; `none` models a panic. -/
def Physics.resolve (self : Physics) (binder : Binder) (graph : Graph) :
    Option (Physics × List MessageKind) :=
  if self.bodies.items.length ≠ 0 then none
  else if self.colliders.items.length ≠ 0 then none
  else
    match self.desc with
    | none => none
    | some phys_desc =>
      let bodies1 : Arena RigidBody :=
        phys_desc.bodies.foldl (fun a d => (a.insert d.convert_to_body).1) self.bodies
      let colliderFold :=
        phys_desc.colliders.foldl
          (fun acc d => acc.bind
            (fun st => resolveColliderStep binder graph phys_desc.body_handle_map st d))
          (some (self.colliders, bodies1, ([] : List MessageKind)))
      colliderFold.bind (fun st =>
        (phys_desc.joints.foldl
            (fun acc d => acc.bind
              (fun a => resolveJointStep phys_desc.body_handle_map a d))
            (some self.joints)).map
          (fun joints3 =>
            ({ self with
                desc := none
                body_handle_map := phys_desc.body_handle_map
                collider_handle_map := phys_desc.collider_handle_map
                joint_handle_map := phys_desc.joint_handle_map
                integration_parameters := phys_desc.integration_parameters
                bodies := st.2.1
                colliders := st.1
                joints := joints3 },
             st.2.2)))

/-- Ray intersection result (`struct Intersection`). -/
structure Intersection where
  collider : EngineHandle
  normal : V3
  position : V3
  feature : Nat
  toi : ℚ
deriving DecidableEq, Repr

/-- Ray cast options (`struct RayCastOptions`).  The ray direction is taken
already normalized: the source's f32 `try_normalize` is not representable
over ℚ and no claim depends on the scale of `dir`. -/
structure RayCastOptions where
  ray_origin : V3
  ray_dir : V3
  max_len : ℚ
  groups : Nat
  sort_results : Bool
deriving DecidableEq, Repr

/-- Raw hit as delivered by the solver's query pipeline callback: the
collider's solver handle, surface normal, feature id and distance along the
ray. -/
structure RawHit where
  collider : SolverHandle
  normal : V3
  feature : Nat
  toi : ℚ
deriving DecidableEq, Repr

/-- Modelled from the spec (§2 OUT OF SCOPE, §4.2): rapier's
`QueryPipeline::intersections_with_ray` is the external solver service; its
contract is to invoke the callback exactly for the intersections of the ray
with colliders in the queried groups at distance at most `max_toi`.  The
candidate hit stream is abstracted as an input list filtered by that
contract. -/
def intersections_with_ray (candidates : List RawHit) (max_len : ℚ) : List RawHit :=
  candidates.filter (fun h => h.toi ≤ max_len)

/-- Comparison the source passes to `sort_intersections_by`: `Greater` when
`a.toi > b.toi`, `Less` when `a.toi < b.toi`, `Equal` otherwise — i.e. the
ordering of `toi`. -/
def toiLe (a b : Intersection) : Prop := a.toi ≤ b.toi

instance : DecidableRel toiLe := fun a b => inferInstanceAs (Decidable (a.toi ≤ b.toi))

instance : IsTotal Intersection toiLe := ⟨fun a b => le_total a.toi b.toi⟩

instance : IsTrans Intersection toiLe := ⟨fun _ _ _ h1 h2 => le_trans h1 h2⟩

/-- Point along the ray at distance `toi` (`ray.point_at`), with the
direction taken as already normalized. -/
def rayPointAt (origin dir : V3) (toi : ℚ) : V3 :=
  (origin.1 + toi * dir.1, origin.2.1 + toi * dir.2.1, origin.2.2 + toi * dir.2.2)

/-- Conversion of one raw callback hit into the engine-handle-keyed
`Intersection` pushed into the query buffer (the closure passed to
`intersections_with_ray` in `Physics::cast_ray`); the collider translation
table lookup is `.unwrap()`-ed in the source — `none` models that panic. -/
def toIntersection (collider_handle_map : BiDirHashMap EngineHandle SolverHandle)
    (opts : RayCastOptions) (h : RawHit) : Option Intersection :=
  (collider_handle_map.key_of h.collider).map
    (fun eh =>
      ({ collider := eh
         normal := h.normal
         position := rayPointAt opts.ray_origin opts.ray_dir h.toi
         feature := h.feature
         toi := h.toi } : Intersection))

/-- Cast a ray (`Physics::cast_ray`): clears the storage, converts every raw
hit delivered by the query pipeline into an engine-handle-keyed
`Intersection`, and sorts ascending by `toi` when requested.  The result list
is the sequence of pushes into the query buffer; the storage sink (`Vec` or
`ArrayVec`) is outside the claims (a fixed sink reports overflow, not
modelled).  The source's stable `sort_by` is modelled by the stable
`List.insertionSort` under the same comparator. -/
def Physics.cast_ray (self : Physics) (opts : RayCastOptions)
    (candidates : List RawHit) : Option (List Intersection) :=
  ((intersections_with_ray candidates opts.max_len).mapM
      (toIntersection self.collider_handle_map opts)).map
    (fun hits => if opts.sort_results then List.insertionSort toiLe hits else hits)

/-- Endpoint resolution the joint loop of `Physics::embed_resource` actually
performs (source lines 895-902): the resource joint's solver-side endpoint is
looked up in the HOST world's body translation table (`self.body_handle_map`),
and the resulting host engine handle is then looked up in the resource link's
body map.  Both lookups are `.unwrap()`-ed; `none` models the panic. -/
def embedJointEndpointLookup (host_body_handle_map : BiDirHashMap EngineHandle SolverHandle)
    (link_bodies : List (EngineHandle × EngineHandle))
    (resource_endpoint : SolverHandle) : Option EngineHandle :=
  (host_body_handle_map.key_of resource_endpoint).bind
    (fun k => lookupAssoc link_bodies k)

/-- Modelled from the spec (§4.5): the intended endpoint resolution — the
spec resolves each endpoint through the link map keyed by the SOURCE world's
engine handle, i.e. the resource's own body translation table supplies the
key (exactly as the collider loop of `embed_resource` does via
`desc.parent`). -/
def specEmbedJointEndpointLookup
    (resource_body_handle_map : BiDirHashMap EngineHandle SolverHandle)
    (link_bodies : List (EngineHandle × EngineHandle))
    (resource_endpoint : SolverHandle) : Option EngineHandle :=
  (resource_body_handle_map.key_of resource_endpoint).bind
    (fun k => lookupAssoc link_bodies k)

/-- UUID synthesized from an array position by the handle-map fallback of
`PhysicsDesc::visit` (`Uuid::from_bytes` of the 16-byte little-endian
encoding of `[i as u64, 0u64]`) — an injective function of `i`, modelled as
the identity on ℕ. -/
def uuidFromIndex (i : Nat) : EngineHandle := i

/-- Fallback handle map synthesized when a persisted handle-map field is
missing: entry `i` maps the position-derived UUID to solver handle `(i, 0)`
for every `i` below the entity count. -/
def fallbackHandleMap (n : Nat) : List (EngineHandle × SolverHandle) :=
  (List.range n).map (fun i => (uuidFromIndex i, ((i, 0) : SolverHandle)))

/-- Read one handle-map field of a persisted descriptor set
(`PhysicsDesc::visit`, reading direction): `stored = some m` models a
successful `visit` of the field, `none` a failed one (missing field in an
older save), in which case the fallback map is synthesized instead of
failing.  The `ErasedHandle(index, generation)` wire encoding round-trips to
`from_raw_parts(index, generation)` and is elided. -/
def readHandleMapField (stored : Option (List (EngineHandle × SolverHandle)))
    (n : Nat) : BiDirHashMap EngineHandle SolverHandle :=
  match stored with
  | some m => ⟨m⟩
  | none => ⟨fallbackHandleMap n⟩

/-- Reading direction of `PhysicsDesc::visit` restricted to the three
handle-map blocks: each block independently falls back when its field is
missing, with `n` the length of the corresponding entity descriptor array. -/
def PhysicsDesc.visitReadHandleMaps (d : PhysicsDesc)
    (storedBodies storedColliders storedJoints :
      Option (List (EngineHandle × SolverHandle))) : PhysicsDesc :=
  { d with
      body_handle_map := readHandleMapField storedBodies d.bodies.length
      collider_handle_map := readHandleMapField storedColliders d.colliders.length
      joint_handle_map := readHandleMapField storedJoints d.joints.length }

/-- Observable state of a body named by claim C1: position, rotation, linear
and angular velocity. -/
def bodyObs (b : RigidBody) : V3 × Quat × V3 × V3 :=
  (b.position, b.rotation, b.linvel, b.angvel)

/-- Observable state of a collider named by claim C1: its shape parameters at
descriptor granularity (trimesh/heightfield bulk data is never persisted). -/
def colliderObs (c : Collider) : ColliderShapeDesc :=
  ColliderShapeDesc.from_collider_shape c.shape

/-- Observable state of a joint: its defining parameters at descriptor
granularity. -/
def jointObs (j : Joint) : JointParamsDesc :=
  JointParamsDesc.from_params j.params

/-- Does a live shape hold trimesh geometry (matches the
`ColliderShapeDesc::Trimesh` test of the resolve loop after snapshotting)? -/
def ColliderShape.isTrimeshShape : ColliderShape → Bool
  | .trimesh _ _ => true
  | _ => false

/-- Arena segment produced by inserting the images of a list into a fresh
index range: element `i` of `l` receives handle `(start + i, 0)`. -/
def enumArena {α β : Type} (f : β → α) : Nat → List β → List (SolverHandle × α)
  | _, [] => []
  | start, d :: ds => ((start, 0), f d) :: enumArena f (start + 1) ds

/-- Default rigid body descriptor (the `Default` impl of `RigidBodyDesc`):
zero position/velocities, identity rotation, dynamic status, awake, no
colliders, mass 1, nothing locked. -/
def RigidBodyDesc.default : RigidBodyDesc :=
  { position := (0, 0, 0)
    rotation := (0, 0, 0, 1)
    linvel := (0, 0, 0)
    angvel := (0, 0, 0)
    sleeping := false
    status := BodyStatusDesc.Dynamic
    colliders := []
    mass := 1
    x_rotation_locked := false
    y_rotation_locked := false
    z_rotation_locked := false
    translation_locked := false }

/-- Does a shape descriptor carry the trimesh placeholder (the test of the
resolve collider loop)? -/
def ColliderShapeDesc.isTrimeshDesc : ColliderShapeDesc → Bool
  | .Trimesh _ => true
  | _ => false

/-- Concrete trimesh collider descriptor whose owning body (engine handle 1)
has no entry in the node binder; used to exhibit the silent skip of the
resolve collider loop. -/
def cexTrimeshColliderDesc : ColliderDesc :=
  { shape := ColliderShapeDesc.Trimesh ⟨⟩
    parent := 1
    friction := 1/2
    density := none
    restitution := 0
    is_sensor := false
    translation := (0, 0, 0)
    rotation := (0, 0, 0, 1)
    collision_groups := 4294967295
    solver_groups := 4294967295 }

/-- Two-body world joined by a ball joint, with all translation tables
populated; removing the first body removes the joint from the solver but the
joint translation table entry (engine handle 5) survives. -/
def cexRemoveBodyWorld : Physics :=
  { Physics.new with
      bodies := ⟨[((0, 0), RigidBodyDesc.default.convert_to_body),
                  ((1, 0), RigidBodyDesc.default.convert_to_body)], 2⟩
      joints := ⟨[((0, 0), { body1 := (0, 0), body2 := (1, 0)
                             params := JointParams.BallJoint (0, 0, 0) (0, 0, 0) })], 1⟩
      body_handle_map := ⟨[(1, (0, 0)), (2, (1, 0))]⟩
      joint_handle_map := ⟨[(5, (0, 0))]⟩ }

/-- Body with one attached collider at solver slot (0,0), for exercising the
collider cascade of `remove_body`. -/
def witRemovedBody : RigidBody :=
  { RigidBodyDesc.default.convert_to_body with colliders := [(0, 0)] }

/-- One-body world whose body owns one ball collider, with both translation
tables populated. -/
def witRemoveBodyWorld : Physics :=
  { Physics.new with
      bodies := ⟨[((0, 0), witRemovedBody)], 1⟩
      colliders := ⟨[((0, 0), defaultBuiltCollider (ColliderShape.ball 1))], 1⟩
      body_handle_map := ⟨[(1, (0, 0))]⟩
      collider_handle_map := ⟨[(4, (0, 0))]⟩ }

/-- World whose live bodies sit at non-dense, generation-tagged solver slots
(3,7) and (1,2), for exercising the save-stable dense renumbering. -/
def witDenseWorld : Physics :=
  { Physics.new with
      bodies := ⟨[((3, 7), RigidBodyDesc.default.convert_to_body),
                  ((1, 2), RigidBodyDesc.default.convert_to_body)], 8⟩
      body_handle_map := ⟨[(9, (3, 7)), (10, (1, 2))]⟩ }

/-- Resolvability condition for one collider descriptor during the resolve
loop: its parent engine handle is registered in the (restored) body
translation table, and if it is the trimesh placeholder its parent is bound
to a valid scene node. -/
def goodColliderDesc (binder : Binder) (graph : Graph)
    (map : BiDirHashMap EngineHandle SolverHandle) (d : ColliderDesc) : Prop :=
  (map.value_of d.parent).isSome = true ∧
  (d.shape.isTrimeshDesc = true →
    ∃ node, lookupAssoc binder d.parent = some node ∧
      graph.is_valid_handle node = true)

/-- World holding one body with one trimesh collider, fully registered in the
translation tables; with no node binding for the body, the round trip drops
the collider. -/
def cexRoundtripWorld : Physics :=
  { Physics.new with
      bodies := ⟨[((0, 0), witRemovedBody)], 1⟩
      colliders := ⟨[((0, 0),
        { defaultBuiltCollider (ColliderShape.trimesh [(0, 0, 0)] [(0, 0, 0)]) with
          parent := (0, 0) })], 1⟩
      body_handle_map := ⟨[(1, (0, 0))]⟩
      collider_handle_map := ⟨[(2, (0, 0))]⟩ }

/-- Well-formed world with two bodies, one ball collider and one joint, for
exercising the round trip. -/
def witRoundtripWorld : Physics :=
  { Physics.new with
      bodies := ⟨[((0, 0), witRemovedBody),
                  ((1, 0), RigidBodyDesc.default.convert_to_body)], 2⟩
      colliders := ⟨[((0, 0),
        { defaultBuiltCollider (ColliderShape.ball 1) with parent := (0, 0) })], 1⟩
      joints := ⟨[((0, 0), { body1 := (0, 0), body2 := (1, 0)
                             params := JointParams.BallJoint (0, 0, 0) (0, 0, 0) })], 1⟩
      body_handle_map := ⟨[(1, (0, 0)), (2, (1, 0))]⟩
      collider_handle_map := ⟨[(3, (0, 0))]⟩
      joint_handle_map := ⟨[(4, (0, 0))]⟩ }

-- ========== theorems ==========

/-- C8: for every shape discriminant outside 0..=9 and every joint discriminant
outside 0..=3, `from_id` is a hard deserialization error (no silent default
variant); inside those ranges the variant carrying exactly that discriminant is
produced.  The reading `visit` paths (`ColliderShapeDesc::visit`,
`JointParamsDesc::visit`) propagate this error via the `?` operator. -/
theorem c8_from_id_discriminants :
    (∀ id : Nat, 10 ≤ id → ∃ msg, ColliderShapeDesc.from_id id = Except.error msg) ∧
    (∀ id : Nat, id < 10 → ∃ s, ColliderShapeDesc.from_id id = Except.ok s ∧ s.id = id) ∧
    (∀ id : Nat, 4 ≤ id → ∃ msg, JointParamsDesc.from_id id = Except.error msg) ∧
    (∀ id : Nat, id < 4 → ∃ j, JointParamsDesc.from_id id = Except.ok j ∧ j.id = id) := by
  refine ⟨?_, ?_, ?_, ?_⟩
  · intro id h
    refine ⟨"Invalid collider shape desc id " ++ toString id ++ "!", ?_⟩
    unfold ColliderShapeDesc.from_id
    match id, h with
    | (n + 10), _ => rfl
  · intro id h
    interval_cases id <;> exact ⟨_, rfl, rfl⟩
  · intro id h
    refine ⟨"Invalid joint param desc id " ++ toString id ++ "!", ?_⟩
    unfold JointParamsDesc.from_id
    match id, h with
    | (n + 4), _ => rfl
  · intro id h
    interval_cases id <;> exact ⟨_, rfl, rfl⟩

/-- Witness for C8 at concrete discriminants: 10 and 4 are rejected, 3 and 7
produce the variants with those exact discriminants. -/
theorem c8_from_id_discriminants_witness :
    (∃ msg, ColliderShapeDesc.from_id 10 = Except.error msg) ∧
    (∃ s, ColliderShapeDesc.from_id 7 = Except.ok s ∧ s.id = 7) ∧
    (∃ msg, JointParamsDesc.from_id 4 = Except.error msg) ∧
    (∃ j, JointParamsDesc.from_id 3 = Except.ok j ∧ j.id = 3) :=
  ⟨c8_from_id_discriminants.1 10 (by decide),
   c8_from_id_discriminants.2.1 7 (by decide),
   c8_from_id_discriminants.2.2.1 4 (by decide),
   c8_from_id_discriminants.2.2.2 3 (by decide)⟩

theorem lookupAssoc_map_value {α β γ : Type} [DecidableEq α] (l : List (α × β))
    (f : β → γ) (k : α) :
    lookupAssoc (l.map (fun p => (p.1, f p.2))) k = (lookupAssoc l k).map f := by
  induction l with
  | nil => rfl
  | cons x xs ih =>
    by_cases h : x.1 = k
    · simp only [lookupAssoc, List.map_cons]
      rw [List.find?_cons_of_pos _ (by simpa using h),
        List.find?_cons_of_pos _ (by simpa using h)]
      rfl
    · simp only [lookupAssoc, List.map_cons]
      rw [List.find?_cons_of_neg _ (by simpa using h),
        List.find?_cons_of_neg _ (by simpa using h)]
      exact ih

theorem find?_of_mem_nodupKeys {α β : Type} [DecidableEq α] (l : List (α × β))
    (k : α) (b : β) (hnd : (l.map Prod.fst).Nodup) (hmem : (k, b) ∈ l) :
    l.find? (fun p => p.1 = k) = some (k, b) := by
  induction l with
  | nil => simp at hmem
  | cons x xs ih =>
    rcases List.mem_cons.mp hmem with hx | hx
    · subst hx
      exact List.find?_cons_of_pos _ (by simp)
    · have hnd2 : x.1 ∉ xs.map Prod.fst ∧ (xs.map Prod.fst).Nodup := by
        rw [List.map_cons] at hnd
        exact List.nodup_cons.mp hnd
      have hk : k ∈ xs.map Prod.fst := List.mem_map.mpr ⟨(k, b), hx, rfl⟩
      have hne : x.1 ≠ k := by
        intro he
        exact hnd2.1 (he ▸ hk)
      rw [List.find?_cons_of_neg _ (by simpa using hne)]
      exact ih hnd2.2 hx

theorem indexOf_of_get? {α : Type} [BEq α] [LawfulBEq α] :
    ∀ (l : List α) (i : Nat) (a : α), l.Nodup → l.get? i = some a → l.indexOf a = i := by
  intro l
  induction l with
  | nil => intro i a _ h; simp at h
  | cons x xs ih =>
    intro i a hnd h
    match i with
    | 0 =>
      rw [List.get?_cons_zero] at h
      injection h with h
      subst h
      simp [List.indexOf_cons]
    | Nat.succ j =>
      rw [List.get?_cons_succ] at h
      have hmem : a ∈ xs := List.get?_mem h
      have hne : (x == a) = false := by
        rw [beq_eq_false_iff_ne]
        intro he
        exact (List.nodup_cons.mp hnd).1 (he ▸ hmem)
      simp [List.indexOf_cons, hne, ih j a (List.nodup_cons.mp hnd).2 h]

theorem value_of_of_key_of {K V : Type} [DecidableEq K] [DecidableEq V]
    (m : BiDirHashMap K V) (hnd : (m.forward.map Prod.fst).Nodup) (v : V) (k : K)
    (h : m.key_of v = some k) : m.value_of k = some v := by
  unfold BiDirHashMap.key_of at h
  rcases hfind : m.forward.find? (fun p => p.2 = v) with _ | p
  · rw [hfind] at h; simp at h
  · rw [hfind] at h
    have h2 : p.1 = k := by simpa using h
    have hv : p.2 = v := by simpa using List.find?_some hfind
    have hmemp : p ∈ m.forward := List.mem_of_find?_eq_some hfind
    have hp : p = (k, v) := by
      cases p; simp_all
    unfold BiDirHashMap.value_of lookupAssoc
    rw [find?_of_mem_nodupKeys m.forward k v hnd (hp ▸ hmemp)]
    rfl

theorem value_of_insert {K V : Type} [DecidableEq K] [DecidableEq V]
    (m : BiDirHashMap K V) (k : K) (v : V) : (m.insert k v).value_of k = some v := by
  unfold BiDirHashMap.insert BiDirHashMap.value_of lookupAssoc
  rw [List.find?_append]
  have h1 : (m.forward.filter (fun p => p.1 ≠ k && p.2 ≠ v)).find?
      (fun p => p.1 = k) = none := by
    rw [List.find?_eq_none]
    intro p hp
    have := (List.mem_filter.mp hp).2
    simp only [Bool.and_eq_true, decide_eq_true_eq] at this
    simp [this.1]
  rw [h1]
  simp [List.find?]

theorem enumArena_length {α β : Type} (f : β → α) :
    ∀ (ds : List β) (start : Nat), (enumArena f start ds).length = ds.length := by
  intro ds
  induction ds with
  | nil => intro start; rfl
  | cons d ds ih => intro start; simp [enumArena, ih]

theorem enumArena_find? {α β : Type} (f : β → α) :
    ∀ (ds : List β) (start j : Nat) (hj : j < ds.length),
      (enumArena f start ds).find? (fun p => p.1 = ((start + j, 0) : SolverHandle))
        = some ((start + j, 0), f (ds.get ⟨j, hj⟩)) := by
  intro ds
  induction ds with
  | nil => intro start j hj; simp at hj
  | cons d ds ih =>
    intro start j hj
    match j with
    | 0 =>
      simp only [enumArena, Nat.add_zero]
      rw [List.find?_cons_of_pos _ (by simp)]
      rfl
    | Nat.succ i =>
      simp only [enumArena]
      rw [List.find?_cons_of_neg _ (by simp [Prod.ext_iff])]
      have := ih (start + 1) i (by simpa using Nat.lt_of_succ_lt_succ hj)
      rw [show start + 1 + i = start + (i + 1) by omega] at this
      rw [this]
      rfl

theorem foldl_insert_arena {α β : Type} (g : β → α) :
    ∀ (ds : List β) (a : Arena α),
      ds.foldl (fun a d => (a.insert (g d)).1) a
        = ⟨a.items ++ enumArena g a.next_index ds, a.next_index + ds.length⟩ := by
  intro ds
  induction ds with
  | nil => intro a; simp [enumArena]
  | cons d ds ih =>
    intro a
    simp only [List.foldl_cons]
    rw [ih]
    simp only [Arena.insert, enumArena]
    congr 1
    · simp
    · simp; omega

theorem mapM_option_mem {α β : Type} (f : α → Option β) :
    ∀ (l : List α) (l2 : List β), l.mapM f = some l2 → ∀ b ∈ l2, ∃ a ∈ l, f a = some b := by
  intro l
  induction l with
  | nil =>
    intro l2 h b hb
    simp only [List.mapM_nil] at h
    injection h with h
    subst h
    simp at hb
  | cons a l ih =>
    intro l2 h b hb
    rw [List.mapM_cons] at h
    rcases hfa : f a with _ | b0 <;> rw [hfa] at h
    · simp at h
    · rcases hml : l.mapM f with _ | bs <;> rw [hml] at h
      · simp at h
      · simp only [Option.bind_some, Option.pure_def] at h
        injection h with h
        subst h
        rcases List.mem_cons.mp hb with hb | hb
        · exact ⟨a, List.mem_cons_self a l, hb ▸ hfa⟩
        · rcases ih bs hml b hb with ⟨x, hx1, hx2⟩
          exact ⟨x, List.mem_cons_of_mem a hx1, hx2⟩

theorem lookupAssoc_map_of_nodup {β : Type} (g : Nat → β) :
    ∀ (l : List Nat), l.Nodup → ∀ i ∈ l,
      lookupAssoc (l.map (fun j => (j, g j))) i = some (g i) := by
  intro l
  induction l with
  | nil => intro _ i hi; simp at hi
  | cons x xs ih =>
    intro hnd i hi
    by_cases h : x = i
    · subst h
      simp only [lookupAssoc, List.map_cons]
      rw [List.find?_cons_of_pos _ (by simp)]
      rfl
    · rcases List.mem_cons.mp hi with hx | hx
      · exact absurd hx.symm h
      · simp only [lookupAssoc, List.map_cons]
        rw [List.find?_cons_of_neg _ (by simpa using h)]
        exact ih (List.nodup_cons.mp hnd).2 i hx

theorem find?_key_filter_ne {α β : Type} [DecidableEq α] (l : List (α × β)) (k : α) :
    (l.filter (fun p => p.1 ≠ k)).find? (fun p => p.1 = k) = none := by
  rw [List.find?_eq_none]
  intro p hp
  have := (List.mem_filter.mp hp).2
  simp only [decide_eq_true_eq] at *
  simpa using this

theorem find?_filter_dropped {α β : Type} [DecidableEq α] (l : List (α × β))
    (q : α × β → Bool) (k : α) (h : ∀ p ∈ l, p.1 = k → q p = false) :
    (l.filter q).find? (fun p => p.1 = k) = none := by
  rw [List.find?_eq_none]
  intro p hp
  have hmem := (List.mem_filter.mp hp).1
  have hq := (List.mem_filter.mp hp).2
  intro hpk
  have := h p hmem (by simpa using hpk)
  rw [this] at hq
  simp at hq

theorem foldl_remove_by_value {K V : Type} [DecidableEq V] :
    ∀ (L : List V) (m : BiDirHashMap K V),
      (L.foldl (fun m v => m.remove_by_value v) m).forward
        = m.forward.filter (fun p => decide (p.2 ∉ L)) := by
  intro L
  induction L with
  | nil =>
    intro m
    simp only [List.foldl_nil]
    rw [List.filter_eq_self.mpr]
    intro p _
    simp
  | cons a L ih =>
    intro m
    simp only [List.foldl_cons]
    rw [ih]
    simp only [BiDirHashMap.remove_by_value]
    rw [List.filter_filter]
    apply List.filter_congr
    intro p _
    by_cases h1 : p.2 = a
    · simp [h1]
    · by_cases h2 : p.2 ∈ L <;> simp [h1, h2]

-- ===== C7 =====

/-- C7: `make_trimesh` on a subtree that yields no triangles returns the
degenerate single-point placeholder trimesh shape and emits exactly one
warning (and no error); it never raises a hard error for that input (the
function is total and its only log output is the single warning). -/
theorem c7_make_trimesh_empty_placeholder (root : NodeHandle) (graph : Graph)
    (h : graph.collect_from root = []) :
    Physics.make_trimesh root graph
      = (ColliderShape.trimesh [(0, 0, 0)] [(0, 0, 0)], [MessageKind.Warning]) ∧
    (Physics.make_trimesh root graph).2.count MessageKind.Warning = 1 ∧
    (Physics.make_trimesh root graph).2.count MessageKind.Error = 0 := by
  unfold Physics.make_trimesh
  rw [h]
  exact ⟨rfl, rfl, rfl⟩

/-- Witness for C7: a one-node scene graph whose root is not a mesh node. -/
theorem c7_make_trimesh_empty_placeholder_witness :
    Graph.collect_from ⟨[some (SceneNode.node false [] [])]⟩ 0 = [] ∧
    Physics.make_trimesh 0 ⟨[some (SceneNode.node false [] [])]⟩
      = (ColliderShape.trimesh [(0, 0, 0)] [(0, 0, 0)], [MessageKind.Warning]) := by
  have h : Graph.collect_from ⟨[some (SceneNode.node false [] [])]⟩ 0 = [] := by
    simp [Graph.collect_from, SceneNode.collect]
  exact ⟨h, (c7_make_trimesh_empty_placeholder 0 _ h).1⟩

-- ===== C9 =====

/-- C9: reading a persisted descriptor set with a missing handle-map field
does not fail: the read synthesizes a fallback map assigning entry `i` the
position-derived UUID and solver handle `(i, 0)` for every `i` below the
entity count of that kind — independently for the body, collider and joint
maps. -/
theorem c9_missing_handle_map_fallback (d : PhysicsDesc)
    (sB sC sJ : Option (List (EngineHandle × SolverHandle))) :
    (sB = none →
      (d.visitReadHandleMaps sB sC sJ).body_handle_map
        = ⟨fallbackHandleMap d.bodies.length⟩ ∧
      ∀ i, i < d.bodies.length →
        (d.visitReadHandleMaps sB sC sJ).body_handle_map.value_of (uuidFromIndex i)
          = some (i, 0)) ∧
    (sC = none →
      (d.visitReadHandleMaps sB sC sJ).collider_handle_map
        = ⟨fallbackHandleMap d.colliders.length⟩ ∧
      ∀ i, i < d.colliders.length →
        (d.visitReadHandleMaps sB sC sJ).collider_handle_map.value_of (uuidFromIndex i)
          = some (i, 0)) ∧
    (sJ = none →
      (d.visitReadHandleMaps sB sC sJ).joint_handle_map
        = ⟨fallbackHandleMap d.joints.length⟩ ∧
      ∀ i, i < d.joints.length →
        (d.visitReadHandleMaps sB sC sJ).joint_handle_map.value_of (uuidFromIndex i)
          = some (i, 0)) := by
  have key : ∀ n i, i < n →
      BiDirHashMap.value_of ⟨fallbackHandleMap n⟩ (uuidFromIndex i) = some (i, 0) := by
    intro n i hi
    unfold BiDirHashMap.value_of fallbackHandleMap uuidFromIndex
    exact lookupAssoc_map_of_nodup (fun j => ((j, 0) : SolverHandle)) (List.range n)
      (List.nodup_range n) i (List.mem_range.mpr hi)
  refine ⟨?_, ?_, ?_⟩
  · intro hB
    subst hB
    exact ⟨rfl, fun i hi => key _ i hi⟩
  · intro hC
    subst hC
    exact ⟨rfl, fun i hi => key _ i hi⟩
  · intro hJ
    subst hJ
    exact ⟨rfl, fun i hi => key _ i hi⟩

/-- Witness for C9: a descriptor set with two body descriptors and all three
handle-map fields missing synthesizes the two-entry fallback body map. -/
theorem c9_missing_handle_map_fallback_witness :
    (({ integration_parameters := IntegrationParametersDesc.default
        colliders := []
        bodies := [RigidBodyDesc.default, RigidBodyDesc.default]
        gravity := (0, 0, 0)
        joints := []
        body_handle_map := BiDirHashMap.empty
        collider_handle_map := BiDirHashMap.empty
        joint_handle_map := BiDirHashMap.empty } : PhysicsDesc).visitReadHandleMaps
        none none none).body_handle_map.value_of (uuidFromIndex 1) = some (1, 0) :=
  ((c9_missing_handle_map_fallback _ none none none).1 rfl).2 1 (by decide)

-- ===== C4 =====

/-- C4 (code bug): the joint loop of `embed_resource` keys the resource-link
body map with an engine handle obtained from the HOST world's body translation
table instead of the resource's.  Concretely: the host holds one embedded body
(host engine handle 100 at host solver slot (0,0)), the link map records the
resource body (resource engine handle 5) as mapped to host handle 100, and the
resource joint endpoint is resource solver handle (0,0).  The code's lookup
chain yields `none` (an `unwrap` panic in the source), while the endpoint
resolution the spec describes (key the link map by the SOURCE engine handle,
exactly as the collider loop does) yields host handle 100. -/
theorem c4_embed_joint_lookup_bug :
    embedJointEndpointLookup ⟨[(100, (0, 0))]⟩ [(5, 100)] (0, 0) = none ∧
    specEmbedJointEndpointLookup ⟨[(5, (0, 0))]⟩ [(5, 100)] (0, 0) = some 100 := by
  exact ⟨rfl, rfl⟩

-- ===== C6 =====

/-- C6 (counterexample to the claim as stated): a trimesh collider descriptor
whose owning body has NO node binding is skipped during resolve WITHOUT any
error being reported — the log is left untouched — contradicting the claim
that a missing binding reports an error. -/
theorem c6_counterexample :
    cexTrimeshColliderDesc.shape = ColliderShapeDesc.Trimesh ⟨⟩ ∧
    lookupAssoc ([] : Binder) cexTrimeshColliderDesc.parent = none ∧
    resolveColliderStep [] ⟨[]⟩ ⟨[]⟩ (Arena.empty, Arena.empty, []) cexTrimeshColliderDesc
      = some (Arena.empty, Arena.empty, []) := by
  exact ⟨rfl, rfl, rfl⟩

/-- C6 (amended): during resolve, a trimesh collider descriptor with a missing
body-to-node binding is skipped silently (no error); one whose bound node is
invalid in the scene graph is skipped with exactly one error reported; in both
cases the step succeeds, so the rest of the resolve operation continues
(non-fatal).  A collider descriptor of any other shape is deserialized
directly from the descriptor and inserted. -/
theorem c6_resolve_trimesh_skip (binder : Binder) (graph : Graph)
    (map : BiDirHashMap EngineHandle SolverHandle)
    (st : Arena Collider × Arena RigidBody × List MessageKind) (desc : ColliderDesc) :
    (∀ t, desc.shape = ColliderShapeDesc.Trimesh t →
      (lookupAssoc binder desc.parent = none →
        resolveColliderStep binder graph map st desc = some st) ∧
      (∀ node, lookupAssoc binder desc.parent = some node →
        graph.is_valid_handle node = false →
        resolveColliderStep binder graph map st desc
          = some (st.1, st.2.1, st.2.2 ++ [MessageKind.Error]))) ∧
    (desc.shape.isTrimeshDesc = false →
      ∀ parent, map.value_of desc.parent = some parent →
        resolveColliderStep binder graph map st desc
          = some ((insertColliderWith st.1 st.2.1 desc.convert_to_collider.1 parent).1,
              (insertColliderWith st.1 st.2.1 desc.convert_to_collider.1 parent).2.1,
              st.2.2)) := by
  constructor
  · intro t ht
    constructor
    · intro hb
      unfold resolveColliderStep
      rw [ht, hb]
    · intro node hb hv
      unfold resolveColliderStep
      rw [ht, hb]
      simp [hv]
  · intro hnt parent hp
    have hp2 : map.value_of desc.convert_to_collider.2 = some parent := hp
    cases hd : desc.shape <;> rw [hd] at hnt <;>
      simp only [ColliderShapeDesc.isTrimeshDesc] at hnt
    case Trimesh t => cases hnt
    all_goals
      simp only [resolveColliderStep, hd, hp2]

/-- Witness for C6: concrete instances of all three behaviours — silent skip
on missing binding, one error on invalid node, direct insertion for a ball
shape. -/
theorem c6_resolve_trimesh_skip_witness :
    (lookupAssoc ([] : Binder) cexTrimeshColliderDesc.parent = none ∧
      resolveColliderStep [] ⟨[]⟩ ⟨[(1, (0, 0))]⟩ (Arena.empty, Arena.empty, [])
        cexTrimeshColliderDesc = some (Arena.empty, Arena.empty, [])) ∧
    (resolveColliderStep [(1, 9)] ⟨[]⟩ ⟨[(1, (0, 0))]⟩ (Arena.empty, Arena.empty, [])
        cexTrimeshColliderDesc = some (Arena.empty, Arena.empty, [MessageKind.Error])) := by
  refine ⟨⟨rfl, ?_⟩, ?_⟩
  · exact ((c6_resolve_trimesh_skip [] ⟨[]⟩ ⟨[(1, (0, 0))]⟩ (Arena.empty, Arena.empty, [])
      cexTrimeshColliderDesc).1 ⟨⟩ rfl).1 rfl
  · exact ((c6_resolve_trimesh_skip [(1, 9)] ⟨[]⟩ ⟨[(1, (0, 0))]⟩ (Arena.empty, Arena.empty, [])
      cexTrimeshColliderDesc).1 ⟨⟩ rfl).2 9 rfl rfl

-- ===== C10 =====

/-- C10: `add_collider`/`add_joint` with every referenced body handle
registered in the body translation table do not panic: they insert the
entity, register the freshly minted engine handle in the corresponding
translation table and return it; with an unregistered body handle they panic
(`none`, the model of the source's `.unwrap()`) instead of returning a
recoverable not-found result. -/
theorem c10_add_collider_add_joint (W : Physics) (c : Collider)
    (bh fresh b1 b2 jfresh : EngineHandle) (jp : JointParams) :
    (∀ sh, W.body_handle_map.value_of bh = some sh →
      ∃ W2, W.add_collider c bh fresh = some (W2, fresh) ∧
        ∃ sh2, W2.collider_handle_map.value_of fresh = some sh2 ∧
          W2.colliders.items = W.colliders.items ++ [(sh2, { c with parent := sh })]) ∧
    (W.body_handle_map.value_of bh = none → W.add_collider c bh fresh = none) ∧
    (∀ s1 s2, W.body_handle_map.value_of b1 = some s1 →
      W.body_handle_map.value_of b2 = some s2 →
      ∃ W2, W.add_joint b1 b2 jp jfresh = some (W2, jfresh) ∧
        ∃ sh2, W2.joint_handle_map.value_of jfresh = some sh2 ∧
          W2.joints.items
            = W.joints.items ++ [(sh2, { body1 := s1, body2 := s2, params := jp })]) ∧
    ((W.body_handle_map.value_of b1 = none ∨ W.body_handle_map.value_of b2 = none) →
      W.add_joint b1 b2 jp jfresh = none) := by
  refine ⟨?_, ?_, ?_, ?_⟩
  · intro sh hsh
    unfold Physics.add_collider
    rw [hsh]
    refine ⟨_, rfl, (W.colliders.next_index, 0), ?_, rfl⟩
    exact value_of_insert _ _ _
  · intro hnone
    unfold Physics.add_collider
    rw [hnone]
  · intro s1 s2 h1 h2
    unfold Physics.add_joint
    rw [h1, h2]
    refine ⟨_, rfl, (W.joints.next_index, 0), ?_, rfl⟩
    exact value_of_insert _ _ _
  · intro hor
    unfold Physics.add_joint
    rcases hor with h | h
    · rw [h]
    · rw [h]
      cases W.body_handle_map.value_of b1 <;> rfl

/-- Witness for C10: in a world holding two registered bodies, adding a ball
collider to the first and a joint between the two succeeds, and adding a
collider to an unregistered handle panics. -/
theorem c10_add_collider_add_joint_witness :
    (let W : Physics := { Physics.new with
        bodies := ⟨[((0, 0), RigidBodyDesc.default.convert_to_body),
                    ((1, 0), RigidBodyDesc.default.convert_to_body)], 2⟩
        body_handle_map := ⟨[(3, (0, 0)), (4, (1, 0))]⟩ }
     (W.body_handle_map.value_of 3 = some (0, 0) ∧
      (∃ W2, W.add_collider (defaultBuiltCollider (ColliderShape.ball 1)) 3 7
          = some (W2, 7) ∧
        ∃ sh2, W2.collider_handle_map.value_of 7 = some sh2 ∧
          W2.colliders.items = W.colliders.items
            ++ [(sh2, { defaultBuiltCollider (ColliderShape.ball 1) with parent := (0, 0) })]))
     ∧ (W.body_handle_map.value_of 9 = none ∧
        W.add_collider (defaultBuiltCollider (ColliderShape.ball 1)) 9 7 = none)) := by
  intro W
  refine ⟨⟨by decide, ?_⟩, by decide, ?_⟩
  · exact (c10_add_collider_add_joint W (defaultBuiltCollider (ColliderShape.ball 1))
      3 7 3 4 8 (JointParams.BallJoint (0, 0, 0) (0, 0, 0))).1 (0, 0) (by decide)
  · exact (c10_add_collider_add_joint W (defaultBuiltCollider (ColliderShape.ball 1))
      9 7 3 4 8 (JointParams.BallJoint (0, 0, 0) (0, 0, 0))).2.1 (by decide)

-- ===== C5 =====

/-- C5: whenever `cast_ray` succeeds, (a) with `sort_results` set the pushed
intersections are ordered non-decreasing in distance `toi`, and (b) every
intersection pushed into the result storage has distance at most `max_len`. -/
theorem c5_cast_ray_sorted_bounded (W : Physics) (opts : RayCastOptions)
    (candidates : List RawHit) (out : List Intersection)
    (h : W.cast_ray opts candidates = some out) :
    (opts.sort_results = true → out.Sorted toiLe) ∧
    (∀ x ∈ out, x.toi ≤ opts.max_len) := by
  unfold Physics.cast_ray at h
  rcases hm : (intersections_with_ray candidates opts.max_len).mapM
      (toIntersection W.collider_handle_map opts) with _ | hits
  · rw [hm] at h
    simp at h
  · rw [hm] at h
    simp only [Option.map] at h
    injection h with h
    have hbound : ∀ x ∈ hits, x.toi ≤ opts.max_len := by
      intro x hx
      obtain ⟨raw, hraw, hfx⟩ := mapM_option_mem _ _ _ hm x hx
      have hle : raw.toi ≤ opts.max_len := by
        unfold intersections_with_ray at hraw
        have := (List.mem_filter.mp hraw).2
        simpa using this
      unfold toIntersection at hfx
      rcases hk : W.collider_handle_map.key_of raw.collider with _ | eh <;> rw [hk] at hfx
      · simp at hfx
      · simp only [Option.map] at hfx
        injection hfx with hfx
        rw [← hfx]
        exact hle
    subst h
    constructor
    · intro hs
      rw [hs]
      simp only [if_pos]
      exact List.sorted_insertionSort toiLe hits
    · intro x hx
      by_cases hs : opts.sort_results = true
      · rw [hs] at hx
        simp only [if_pos] at hx
        exact hbound x ((List.perm_insertionSort toiLe hits).mem_iff.mp hx)
      · rw [Bool.not_eq_true] at hs
        rw [hs] at hx
        simp only [Bool.false_eq_true, if_false] at hx
        exact hbound x hx

/-- Witness for C5: a two-collider world, three candidate hits of which one
exceeds the maximum length; the cast returns the two admissible hits sorted
ascending by distance. -/
theorem c5_cast_ray_sorted_bounded_witness :
    (let W : Physics := { Physics.new with
        collider_handle_map := ⟨[(7, (0, 0)), (8, (1, 0))]⟩ }
     let opts : RayCastOptions :=
       { ray_origin := (0, 0, 0), ray_dir := (1, 0, 0), max_len := 1
         groups := 4294967295, sort_results := true }
     let cands : List RawHit :=
       [{ collider := (1, 0), normal := (0, 1, 0), feature := 0, toi := 1 },
        { collider := (0, 0), normal := (0, 1, 0), feature := 0, toi := 0 },
        { collider := (0, 0), normal := (0, 1, 0), feature := 1, toi := 2 }]
     ∃ out, W.cast_ray opts cands = some out ∧
       (opts.sort_results = true → out.Sorted toiLe) ∧
       (∀ x ∈ out, x.toi ≤ opts.max_len)) := by
  intro W opts cands
  have h : W.cast_ray opts cands
      = some [{ collider := 7, normal := (0, 1, 0)
                position := rayPointAt (0, 0, 0) (1, 0, 0) 0
                feature := 0, toi := 0 },
              { collider := 8, normal := (0, 1, 0)
                position := rayPointAt (0, 0, 0) (1, 0, 0) 1
                feature := 0, toi := 1 }] := by rfl
  exact ⟨_, h, c5_cast_ray_sorted_bounded W opts cands _ h⟩

-- ===== C2 =====

theorem eq_of_mem_nodupKeys {α β : Type} [DecidableEq α] (l : List (α × β))
    (hnd : (l.map Prod.fst).Nodup) {p q : α × β} (hp : p ∈ l) (hq : q ∈ l)
    (hk : p.1 = q.1) : p = q := by
  rcases p with ⟨a, b1⟩
  rcases q with ⟨a2, b2⟩
  simp only at hk
  subst hk
  have h1 := find?_of_mem_nodupKeys l a b1 hnd hp
  have h2 := find?_of_mem_nodupKeys l a b2 hnd hq
  rw [h1] at h2
  injection h2 with h2

/-- C2 (counterexample to the claim as stated): in a two-body world joined by
one joint, `remove_body` of the first body removes the joint from the solver
but leaves the joint translation table untouched — a stale entry mapping
engine handle 5 to the dead solver handle (0,0) remains, so not every
affected entry of all three tables is purged. -/
theorem c2_counterexample :
    (cexRemoveBodyWorld.remove_body 1).1.joint_handle_map.forward = [(5, (0, 0))] ∧
    (cexRemoveBodyWorld.remove_body 1).1.joints.items = [] ∧
    ((cexRemoveBodyWorld.remove_body 1).2).isSome = true := by
  exact ⟨rfl, rfl, rfl⟩

/-- C2 (amended): `remove_body` on an unregistered handle returns not-found
and changes nothing; on a registered handle it removes the body, all of its
colliders and every joint referencing it from the solver, purges the body's
own translation table entry and the collider table entries of the removed
colliders — so `body(h)` and `collider(c)` afterwards return not-found — but
the joint translation table is NOT purged: entries of removed joints remain
stale. -/
theorem c2_remove_body_cascade (W : Physics) (h : EngineHandle)
    (hknd : (W.collider_handle_map.forward.map Prod.fst).Nodup) :
    (W.body_handle_map.value_of h = none → W.remove_body h = (W, none)) ∧
    (∀ sh body, W.body_handle_map.value_of h = some sh →
      W.bodies.get? sh = some body →
      ∃ W2, W.remove_body h = (W2, some body) ∧
        W2.body_handle_map.value_of h = none ∧
        W2.body h = none ∧
        (∀ ch ∈ body.colliders, W2.colliders.get? ch = none) ∧
        (∀ ce ch, W.collider_handle_map.value_of ce = some ch → ch ∈ body.colliders →
          W2.collider_handle_map.value_of ce = none ∧ W2.collider ce = none) ∧
        (∀ jh j, W2.joints.get? jh = some j → j.body1 ≠ sh ∧ j.body2 ≠ sh) ∧
        W2.joint_handle_map = W.joint_handle_map) := by
  constructor
  · intro hnone
    unfold Physics.remove_body
    rw [hnone]
  · intro sh body hsh hget
    have hstep : W.remove_body h = ({ W with
        bodies := ⟨W.bodies.items.filter (fun p => p.1 ≠ sh), W.bodies.next_index⟩
        colliders := ⟨W.colliders.items.filter (fun p => p.1 ∉ body.colliders),
          W.colliders.next_index⟩
        joints := ⟨W.joints.items.filter (fun p => p.2.body1 ≠ sh && p.2.body2 ≠ sh),
          W.joints.next_index⟩
        collider_handle_map :=
          body.colliders.foldl (fun m ch => m.remove_by_value ch) W.collider_handle_map
        body_handle_map := W.body_handle_map.remove_by_key h }, some body) := by
      simp only [Physics.remove_body, hsh, hget]
    refine ⟨_, hstep, ?_, ?_, ?_, ?_, ?_, rfl⟩
    · show (W.body_handle_map.remove_by_key h).value_of h = none
      unfold BiDirHashMap.remove_by_key BiDirHashMap.value_of lookupAssoc
      rw [find?_key_filter_ne]
      rfl
    · show Option.bind ((W.body_handle_map.remove_by_key h).value_of h) _ = none
      unfold BiDirHashMap.remove_by_key BiDirHashMap.value_of lookupAssoc
      rw [find?_key_filter_ne]
      rfl
    · intro ch hch
      show (Arena.get? ⟨W.colliders.items.filter (fun p => p.1 ∉ body.colliders), _⟩ ch) = none
      unfold Arena.get?
      rw [find?_filter_dropped]
      · rfl
      · intro p _ hpk
        simp [hpk, hch]
    · intro ce ch hce hchmem
      have hmapnone : (body.colliders.foldl (fun m ch => m.remove_by_value ch)
          W.collider_handle_map).value_of ce = none := by
        unfold BiDirHashMap.value_of lookupAssoc
        rw [foldl_remove_by_value]
        rw [find?_filter_dropped]
        · rfl
        · intro p hp hpk
          rcases hfind : W.collider_handle_map.forward.find? (fun q => q.1 = ce) with _ | p0
          · unfold BiDirHashMap.value_of lookupAssoc at hce
            rw [hfind] at hce
            simp at hce
          · unfold BiDirHashMap.value_of lookupAssoc at hce
            rw [hfind] at hce
            have hp0v : p0.2 = ch := by simpa using hce
            have hp0k : p0.1 = ce := by simpa using List.find?_some hfind
            have hp0mem : p0 ∈ W.collider_handle_map.forward :=
              List.mem_of_find?_eq_some hfind
            have hpp0 : p = p0 :=
              eq_of_mem_nodupKeys W.collider_handle_map.forward hknd hp hp0mem
                (by rw [hpk, hp0k])
            rw [hpp0, hp0v]
            simp [hchmem]
      constructor
      · exact hmapnone
      · show Option.bind ((body.colliders.foldl (fun m ch => m.remove_by_value ch)
            W.collider_handle_map).value_of ce) _ = none
        rw [hmapnone]
        rfl
    · intro jh j hj
      have hfind := hj
      unfold Arena.get? at hfind
      rcases hf : (W.joints.items.filter
          (fun p => p.2.body1 ≠ sh && p.2.body2 ≠ sh)).find? (fun p => p.1 = jh)
        with _ | p
      · rw [hf] at hfind; simp at hfind
      · rw [hf] at hfind
        have hpj : p.2 = j := by simpa using hfind
        have hmem := List.mem_of_find?_eq_some hf
        have hcond := (List.mem_filter.mp hmem).2
        simp only [Bool.and_eq_true, decide_eq_true_eq] at hcond
        rw [← hpj]
        exact hcond

/-- Witness for C2: removing the registered single body of a one-body world
with one attached collider removes the collider, purges both the body and
collider table entries, and subsequent `body`/`collider` lookups return
not-found. -/
theorem c2_remove_body_cascade_witness :
    witRemoveBodyWorld.body_handle_map.value_of 1 = some (0, 0) ∧
    witRemoveBodyWorld.bodies.get? (0, 0) = some witRemovedBody ∧
    ∃ W2, witRemoveBodyWorld.remove_body 1 = (W2, some witRemovedBody) ∧
      W2.body 1 = none ∧ W2.collider 4 = none := by
  obtain ⟨W2, h1, _, h3, _, h5, _, _⟩ :=
    (c2_remove_body_cascade witRemoveBodyWorld 1 (by decide)).2 (0, 0) witRemovedBody rfl rfl
  exact ⟨rfl, rfl, W2, h1, h3, (h5 4 (0, 0) rfl (by decide)).2⟩

-- ===== C3 =====

theorem denseRemap_value_of (keys : List SolverHandle)
    (m : BiDirHashMap EngineHandle SolverHandle) (hnd : keys.Nodup)
    (e : EngineHandle) (sh : SolverHandle) (i : Nat)
    (hv : m.value_of e = some sh) (hg : keys.get? i = some sh) :
    (denseRemap keys m).value_of e = some (i, 0) ∧ i < keys.length := by
  constructor
  · show lookupAssoc (m.forward.map
        (fun p => (p.1, ((keys.indexOf p.2, 0) : SolverHandle)))) e = some (i, 0)
    rw [lookupAssoc_map_value m.forward (fun v => ((keys.indexOf v, 0) : SolverHandle)) e]
    unfold BiDirHashMap.value_of at hv
    rw [hv]
    simp only [Option.map]
    have hidx : List.indexOf sh keys = i := indexOf_of_get? keys i sh hnd hg
    rw [hidx]
  · exact (List.get?_eq_some.mp hg).1

/-- C3: `generate_desc` remaps the solver handles stored in the descriptor
set's three handle maps to the dense numbering determined purely by iteration
position — an engine handle mapped to the solver entity at iteration position
`i` is stored as `(i, 0)` (index `i < N`, generation 0), independent of the
entity's internal slot and generation.  `generate_desc` reads the world
through `&self` (the model is a pure function of the world), so two
successive calls with no structural change in between produce identical
numbering. -/
theorem c3_generate_desc_dense_numbering (W : Physics)
    (hb : (W.bodies.items.map Prod.fst).Nodup)
    (hc : (W.colliders.items.map Prod.fst).Nodup)
    (hj : (W.joints.items.map Prod.fst).Nodup) :
    (∀ (e : EngineHandle) (sh : SolverHandle) (i : Nat),
      W.body_handle_map.value_of e = some sh →
      (W.bodies.items.map Prod.fst).get? i = some sh →
      W.generate_desc.body_handle_map.value_of e = some (i, 0) ∧ i < W.bodies.len) ∧
    (∀ (e : EngineHandle) (sh : SolverHandle) (i : Nat),
      W.collider_handle_map.value_of e = some sh →
      (W.colliders.items.map Prod.fst).get? i = some sh →
      W.generate_desc.collider_handle_map.value_of e = some (i, 0) ∧
        i < W.colliders.len) ∧
    (∀ (e : EngineHandle) (sh : SolverHandle) (i : Nat),
      W.joint_handle_map.value_of e = some sh →
      (W.joints.items.map Prod.fst).get? i = some sh →
      W.generate_desc.joint_handle_map.value_of e = some (i, 0) ∧ i < W.joints.len) := by
  refine ⟨?_, ?_, ?_⟩
  · intro e sh i hv hg
    have := denseRemap_value_of (W.bodies.items.map Prod.fst) W.body_handle_map hb
      e sh i hv hg
    exact ⟨this.1, by simpa [Arena.len] using this.2⟩
  · intro e sh i hv hg
    have := denseRemap_value_of (W.colliders.items.map Prod.fst) W.collider_handle_map hc
      e sh i hv hg
    exact ⟨this.1, by simpa [Arena.len] using this.2⟩
  · intro e sh i hv hg
    have := denseRemap_value_of (W.joints.items.map Prod.fst) W.joint_handle_map hj
      e sh i hv hg
    exact ⟨this.1, by simpa [Arena.len] using this.2⟩

/-- Witness for C3: the body at reuse slot (1,2), second in iteration order,
is renumbered to (1,0) in the generated descriptor set. -/
theorem c3_generate_desc_dense_numbering_witness :
    witDenseWorld.body_handle_map.value_of 10 = some (1, 2) ∧
    witDenseWorld.generate_desc.body_handle_map.value_of 10 = some (1, 0) := by
  refine ⟨rfl, ?_⟩
  exact ((c3_generate_desc_dense_numbering witDenseWorld (by decide) (by decide)
    (by decide)).1 10 (1, 2) 1 rfl rfl).1

-- ===== C1 machinery =====

theorem from_into_id (sd : ColliderShapeDesc) :
    ColliderShapeDesc.from_collider_shape sd.into_collider_shape = sd := by
  cases sd <;> rfl

theorem from_params_into_params (p : JointParamsDesc) :
    JointParamsDesc.from_params p.into_params = p := by
  cases p <;> rfl

theorem isTrimeshDesc_from_collider_shape (s : ColliderShape) :
    (ColliderShapeDesc.from_collider_shape s).isTrimeshDesc = s.isTrimeshShape := by
  cases s <;> rfl

theorem make_trimesh_is_trimesh (root : NodeHandle) (graph : Graph) :
    ∃ v i, (Physics.make_trimesh root graph).1 = ColliderShape.trimesh v i := by
  unfold Physics.make_trimesh
  by_cases h : (rawMeshBuild (graph.collect_from root)).2.isEmpty
  · rw [if_pos h]
    exact ⟨_, _, rfl⟩
  · rw [if_neg h]
    exact ⟨_, _, rfl⟩

theorem forall₂_trans_of {α : Type} {R : α → α → Prop}
    (hR : ∀ a b c, R a b → R b c → R a c) :
    ∀ {l1 l2 l3 : List α}, List.Forall₂ R l1 l2 → List.Forall₂ R l2 l3 →
      List.Forall₂ R l1 l3 := by
  intro l1 l2 l3 h12
  induction h12 generalizing l3 with
  | nil =>
    intro h23
    cases h23
    exact List.Forall₂.nil
  | cons hab h12' ih =>
    intro h23
    cases h23 with
    | cons hbc h23' => exact List.Forall₂.cons (hR _ _ _ hab hbc) (ih h23')

theorem find?_obs_of_forall₂ {α β γ : Type} [DecidableEq α] (g : β → γ)
    {l1 l2 : List (α × β)}
    (hf : List.Forall₂ (fun p q => p.1 = q.1 ∧ g p.2 = g q.2) l1 l2) (h : α) :
    ((l2.find? (fun p => p.1 = h)).map (fun p => g p.2))
      = ((l1.find? (fun p => p.1 = h)).map (fun p => g p.2)) := by
  induction hf with
  | nil => rfl
  | cons hpq hf' ih =>
    rename_i p q l1' l2'
    by_cases hk : p.1 = h
    · have hq : q.1 = h := hpq.1 ▸ hk
      rw [List.find?_cons_of_pos _ (by simpa using hq),
        List.find?_cons_of_pos _ (by simpa using hk)]
      simp only [Option.map]
      rw [hpq.2]
    · have hq : ¬ q.1 = h := fun he => hk (hpq.1.symm ▸ he)
      rw [List.find?_cons_of_neg _ (by simpa using hq),
        List.find?_cons_of_neg _ (by simpa using hk)]
      exact ih

theorem insertColliderWith_items (cols : Arena Collider) (bods : Arena RigidBody)
    (c : Collider) (parent : SolverHandle) :
    (insertColliderWith cols bods c parent).1
      = ⟨cols.items ++ [((cols.next_index, 0), { c with parent := parent })],
         cols.next_index + 1⟩ ∧
    List.Forall₂ (fun (p q : SolverHandle × RigidBody) =>
        p.1 = q.1 ∧ bodyObs p.2 = bodyObs q.2)
      bods.items (insertColliderWith cols bods c parent).2.1.items ∧
    (insertColliderWith cols bods c parent).2.1.items.length = bods.items.length ∧
    (insertColliderWith cols bods c parent).2.1.next_index = bods.next_index := by
  refine ⟨rfl, ?_, by simp [insertColliderWith], rfl⟩
  show List.Forall₂ _ bods.items (bods.items.map _)
  rw [List.forall₂_map_right_iff]
  rw [List.forall₂_same]
  intro p _
  by_cases hp : p.1 = parent <;> simp [hp, bodyObs]

theorem resolveColliders_fold (binder : Binder) (graph : Graph)
    (map : BiDirHashMap EngineHandle SolverHandle) :
    ∀ (ds : List ColliderDesc) (cols : Arena Collider) (bods : Arena RigidBody)
      (logs : List MessageKind),
      (∀ d ∈ ds, goodColliderDesc binder graph map d) →
      ∃ (vals : List Collider) (bods2 : Arena RigidBody) (logs2 : List MessageKind),
        ds.foldl (fun acc d => acc.bind
            (fun st => resolveColliderStep binder graph map st d)) (some (cols, bods, logs))
          = some (⟨cols.items ++ enumArena id cols.next_index vals,
                   cols.next_index + ds.length⟩, bods2, logs2) ∧
        List.Forall₂ (fun (d : ColliderDesc) (c : Collider) =>
          ColliderShapeDesc.from_collider_shape c.shape = d.shape) ds vals ∧
        bods2.items.length = bods.items.length ∧
        List.Forall₂ (fun (p q : SolverHandle × RigidBody) =>
          p.1 = q.1 ∧ bodyObs p.2 = bodyObs q.2) bods.items bods2.items := by
  intro ds
  induction ds with
  | nil =>
    intro cols bods logs _
    refine ⟨[], bods, logs, ?_, List.Forall₂.nil, rfl, ?_⟩
    · simp [enumArena]
    · rw [List.forall₂_same]
      intro p _
      exact ⟨rfl, rfl⟩
  | cons d ds ih =>
    intro cols bods logs hgood
    have hd := hgood d (List.mem_cons_self d ds)
    rcases hp : map.value_of d.parent with _ | parent
    · have hd1 := hd.1
      rw [hp] at hd1
      simp at hd1
    · have hstep : ∃ (c1 : Collider) (bods1 : Arena RigidBody) (logs1 : List MessageKind),
          resolveColliderStep binder graph map (cols, bods, logs) d
            = some (⟨cols.items ++ [((cols.next_index, 0), c1)], cols.next_index + 1⟩,
                bods1, logs1) ∧
          ColliderShapeDesc.from_collider_shape c1.shape = d.shape ∧
          bods1.items.length = bods.items.length ∧
          bods1.next_index = bods.next_index ∧
          List.Forall₂ (fun (p q : SolverHandle × RigidBody) =>
            p.1 = q.1 ∧ bodyObs p.2 = bodyObs q.2) bods.items bods1.items := by
        rcases hsh : d.shape with b | b | b | b | b | b | b | b | t | b
        case Trimesh =>
          have ht := hd.2 (by rw [hsh]; rfl)
          rcases ht with ⟨node, hnode, hvalid⟩
          have hins := insertColliderWith_items cols bods
            (defaultBuiltCollider (Physics.make_trimesh node graph).1) parent
          refine ⟨{ defaultBuiltCollider (Physics.make_trimesh node graph).1 with
              parent := parent },
            (insertColliderWith cols bods
              (defaultBuiltCollider (Physics.make_trimesh node graph).1) parent).2.1,
            logs ++ (Physics.make_trimesh node graph).2 ++ [MessageKind.Information],
            ?_, ?_, hins.2.2.1, hins.2.2.2, hins.2.1⟩
          · simp only [resolveColliderStep, hsh, hnode, hvalid, eq_self_iff_true,
              if_true, hp]
            rw [hins.1]
          · obtain ⟨v, i, hvi⟩ := make_trimesh_is_trimesh node graph
            show ColliderShapeDesc.from_collider_shape
              (Physics.make_trimesh node graph).1 = ColliderShapeDesc.Trimesh t
            rw [hvi]
            rfl
        all_goals
          have hp2 : map.value_of d.convert_to_collider.2 = some parent := hp
          have hins := insertColliderWith_items cols bods d.convert_to_collider.1 parent
          refine ⟨{ d.convert_to_collider.1 with parent := parent },
            (insertColliderWith cols bods d.convert_to_collider.1 parent).2.1, logs,
            ?_, ?_, hins.2.2.1, hins.2.2.2, hins.2.1⟩
          · simp only [resolveColliderStep, hsh, hp2]
            rw [hins.1]
          · show ColliderShapeDesc.from_collider_shape d.convert_to_collider.1.shape = _
            have h1 : d.convert_to_collider.1.shape = d.shape.into_collider_shape := rfl
            rw [h1, from_into_id]
            exact hsh
      rcases hstep with ⟨c1, bods1, logs1, hstepEq, hc1shape, hlen1, hnext1, hf1⟩
      obtain ⟨vals, bods2, logs2, hfold, hshapes, hlen2, hf2⟩ :=
        ih ⟨cols.items ++ [((cols.next_index, 0), c1)], cols.next_index + 1⟩ bods1 logs1
          (fun d2 hd2 => hgood d2 (List.mem_cons_of_mem d hd2))
      refine ⟨c1 :: vals, bods2, logs2, ?_, List.Forall₂.cons hc1shape hshapes,
        by rw [hlen2, hlen1], forall₂_trans_of ?_ hf1 hf2⟩
      · rw [List.foldl_cons]
        rw [show Option.bind (some (cols, bods, logs))
            (fun st => resolveColliderStep binder graph map st d)
          = resolveColliderStep binder graph map (cols, bods, logs) d from rfl]
        rw [hstepEq, hfold]
        have harena : (cols.items ++ [((cols.next_index, 0), c1)])
            ++ enumArena id (cols.next_index + 1) vals
            = cols.items ++ enumArena id cols.next_index (c1 :: vals) := by
          rw [List.append_assoc]
          rfl
        rw [harena]
        have hnum : cols.next_index + 1 + ds.length = cols.next_index + (d :: ds).length := by
          simp only [List.length_cons]
          omega
        rw [hnum]
      · intro a b c hab hbc
        exact ⟨hab.1.trans hbc.1, hab.2.trans hbc.2⟩

theorem resolveJoints_fold (map : BiDirHashMap EngineHandle SolverHandle) :
    ∀ (ds : List JointDesc) (a : Arena Joint),
      (∀ d ∈ ds, (map.value_of d.body1).isSome = true ∧
        (map.value_of d.body2).isSome = true) →
      ∃ vals : List Joint,
        ds.foldl (fun acc d => acc.bind (fun a2 => resolveJointStep map a2 d)) (some a)
          = some ⟨a.items ++ enumArena id a.next_index vals,
                  a.next_index + ds.length⟩ ∧
        List.Forall₂ (fun (d : JointDesc) (j : Joint) =>
          JointParamsDesc.from_params j.params = d.params ∧
          map.value_of d.body1 = some j.body1 ∧
          map.value_of d.body2 = some j.body2) ds vals := by
  intro ds
  induction ds with
  | nil =>
    intro a _
    refine ⟨[], ?_, List.Forall₂.nil⟩
    simp [enumArena]
  | cons d ds ih =>
    intro a hgood
    have hd := hgood d (List.mem_cons_self d ds)
    rcases h1 : map.value_of d.body1 with _ | b1
    · rw [h1] at hd; simp at hd
    · rcases h2 : map.value_of d.body2 with _ | b2
      · rw [h2] at hd; simp at hd
      · have hstep : resolveJointStep map a d
            = some ⟨a.items ++ [((a.next_index, 0),
                { body1 := b1, body2 := b2, params := d.params.into_params })],
              a.next_index + 1⟩ := by
          unfold resolveJointStep
          rw [h1, h2]
          rfl
        obtain ⟨vals, hfold, hf⟩ :=
          ih ⟨a.items ++ [((a.next_index, 0),
              { body1 := b1, body2 := b2, params := d.params.into_params })],
            a.next_index + 1⟩
            (fun d2 hd2 => hgood d2 (List.mem_cons_of_mem d hd2))
        refine ⟨{ body1 := b1, body2 := b2, params := d.params.into_params } :: vals, ?_, ?_⟩
        · rw [List.foldl_cons]
          rw [show Option.bind (some a) (fun a2 => resolveJointStep map a2 d)
            = resolveJointStep map a d from rfl]
          rw [hstep, hfold]
          have harena : (a.items ++ [((a.next_index, 0),
                ({ body1 := b1, body2 := b2, params := d.params.into_params } : Joint))])
              ++ enumArena id (a.next_index + 1) vals
              = a.items ++ enumArena id a.next_index
                  ({ body1 := b1, body2 := b2, params := d.params.into_params } :: vals) := by
            rw [List.append_assoc]
            rfl
          rw [harena]
          have hnum : a.next_index + 1 + ds.length = a.next_index + (d :: ds).length := by
            simp only [List.length_cons]
            omega
          rw [hnum]
        · exact List.Forall₂.cons ⟨from_params_into_params d.params, h1, h2⟩ hf

theorem resolve_unfold (W0 : Physics) (binder : Binder) (graph : Graph) (d : PhysicsDesc)
    (hb : W0.bodies.items.length = 0) (hc : W0.colliders.items.length = 0)
    (hd : W0.desc = some d) :
    Physics.resolve W0 binder graph =
      (d.colliders.foldl (fun acc de => acc.bind
          (fun st => resolveColliderStep binder graph d.body_handle_map st de))
        (some (W0.colliders,
          d.bodies.foldl (fun a de => (a.insert de.convert_to_body).1) W0.bodies,
          []))).bind
        (fun st =>
          (d.joints.foldl (fun acc de => acc.bind
              (fun a2 => resolveJointStep d.body_handle_map a2 de)) (some W0.joints)).map
            (fun joints3 =>
              ({ W0 with
                  desc := none
                  body_handle_map := d.body_handle_map
                  collider_handle_map := d.collider_handle_map
                  joint_handle_map := d.joint_handle_map
                  integration_parameters := d.integration_parameters
                  bodies := st.2.1
                  colliders := st.1
                  joints := joints3 }, st.2.2))) := by
  unfold Physics.resolve
  rw [hb, hc, hd]
  simp

theorem arena_find?_of_get? {α β : Type} [DecidableEq α] (items : List (α × β))
    (i : Nat) (sh : α) (hnd : (items.map Prod.fst).Nodup)
    (hgi : (items.map Prod.fst).get? i = some sh) :
    ∃ b, items.get? i = some (sh, b) ∧ items.find? (fun p => p.1 = sh) = some (sh, b) := by
  rw [List.get?_map] at hgi
  rcases hgo : items.get? i with _ | p
  · rw [hgo] at hgi
    simp at hgi
  · rw [hgo] at hgi
    have hp1 : p.1 = sh := by simpa using hgi
    rcases p with ⟨a, b⟩
    simp only at hp1
    subst hp1
    exact ⟨b, rfl, find?_of_mem_nodupKeys items a b hnd (List.get?_mem hgo)⟩

-- ===== C1 =====

/-- C1 (amended): for every well-formed world (injective translation tables
covering exactly the live entities, registered collider parents and joint
endpoints) in which every trimesh collider's owning body is bound to a valid
scene node, `generate_desc()` followed by `resolve` on a fresh world produces
an observably equivalent world: the same number of bodies, colliders and
joints, and every engine handle resolves to a corresponding live entity with
the same body position, rotation and velocities, the same collider shape
parameters, and the same joint parameters. -/
theorem c1_generate_desc_resolve_roundtrip (W : Physics) (binder : Binder) (graph : Graph)
    (hbk : (W.bodies.items.map Prod.fst).Nodup)
    (hck : (W.colliders.items.map Prod.fst).Nodup)
    (hjk : (W.joints.items.map Prod.fst).Nodup)
    (hbmk : (W.body_handle_map.forward.map Prod.fst).Nodup)
    (hcmk : (W.collider_handle_map.forward.map Prod.fst).Nodup)
    (hjmk : (W.joint_handle_map.forward.map Prod.fst).Nodup)
    (hbv : ∀ pr ∈ W.body_handle_map.forward, pr.2 ∈ W.bodies.items.map Prod.fst)
    (hcv : ∀ pr ∈ W.collider_handle_map.forward, pr.2 ∈ W.colliders.items.map Prod.fst)
    (hjv : ∀ pr ∈ W.joint_handle_map.forward, pr.2 ∈ W.joints.items.map Prod.fst)
    (hcp : ∀ p ∈ W.colliders.items, (W.body_handle_map.key_of p.2.parent).isSome = true)
    (hjp : ∀ p ∈ W.joints.items, (W.body_handle_map.key_of p.2.body1).isSome = true ∧
      (W.body_handle_map.key_of p.2.body2).isSome = true)
    (htm : ∀ p ∈ W.colliders.items, p.2.shape.isTrimeshShape = true →
      ∃ node, lookupAssoc binder ((W.body_handle_map.key_of p.2.parent).getD 0)
          = some node ∧ graph.is_valid_handle node = true) :
    ∃ W2 logs,
      Physics.resolve { Physics.new with desc := some W.generate_desc } binder graph
        = some (W2, logs) ∧
      W2.bodies.len = W.bodies.len ∧
      W2.colliders.len = W.colliders.len ∧
      W2.joints.len = W.joints.len ∧
      (∀ e, (W2.body e).map bodyObs = (W.body e).map bodyObs) ∧
      (∀ e, (W2.collider e).map colliderObs = (W.collider e).map colliderObs) ∧
      (∀ e, (W2.joint_of e).map jointObs = (W.joint_of e).map jointObs) := by
  have hdbodies : W.generate_desc.bodies
      = W.bodies.items.map (fun p => RigidBodyDesc.from_body p.2 W.collider_handle_map) :=
    rfl
  have hlive : ∀ (m : BiDirHashMap EngineHandle SolverHandle)
      (keys : List SolverHandle), (∀ pr ∈ m.forward, pr.2 ∈ keys) →
      ∀ e sh, m.value_of e = some sh → sh ∈ keys := by
    intro m keys hm e sh h
    rcases hf : m.forward.find? (fun p => p.1 = e) with _ | p
    · unfold BiDirHashMap.value_of lookupAssoc at h
      rw [hf] at h
      simp at h
    · unfold BiDirHashMap.value_of lookupAssoc at h
      rw [hf] at h
      have hp2 : p.2 = sh := by simpa using h
      exact hp2 ▸ hm p (List.mem_of_find?_eq_some hf)
  have hbv2 := hlive W.body_handle_map _ hbv
  have hcv2 := hlive W.collider_handle_map _ hcv
  have hjv2 := hlive W.joint_handle_map _ hjv
  have hdcolls : W.generate_desc.colliders
      = W.colliders.items.map (fun p => ColliderDesc.from_collider p.2 W.body_handle_map) :=
    rfl
  have hdjoints : W.generate_desc.joints
      = W.joints.items.map (fun p => JointDesc.from_joint p.2 W.body_handle_map) := rfl
  -- dense lookups through the three remapped maps
  have hdmvB : ∀ e, W.generate_desc.body_handle_map.value_of e
      = (W.body_handle_map.value_of e).map
          (fun sh => (((W.bodies.items.map Prod.fst).indexOf sh, 0) : SolverHandle)) := by
    intro e
    show lookupAssoc (W.body_handle_map.forward.map
      (fun p => (p.1,
        (((W.bodies.items.map Prod.fst).indexOf p.2, 0) : SolverHandle)))) e = _
    rw [lookupAssoc_map_value W.body_handle_map.forward
      (fun v => (((W.bodies.items.map Prod.fst).indexOf v, 0) : SolverHandle)) e]
    rfl
  have hdmvC : ∀ e, W.generate_desc.collider_handle_map.value_of e
      = (W.collider_handle_map.value_of e).map
          (fun sh => (((W.colliders.items.map Prod.fst).indexOf sh, 0) : SolverHandle)) := by
    intro e
    show lookupAssoc (W.collider_handle_map.forward.map
      (fun p => (p.1,
        (((W.colliders.items.map Prod.fst).indexOf p.2, 0) : SolverHandle)))) e = _
    rw [lookupAssoc_map_value W.collider_handle_map.forward
      (fun v => (((W.colliders.items.map Prod.fst).indexOf v, 0) : SolverHandle)) e]
    rfl
  have hdmvJ : ∀ e, W.generate_desc.joint_handle_map.value_of e
      = (W.joint_handle_map.value_of e).map
          (fun sh => (((W.joints.items.map Prod.fst).indexOf sh, 0) : SolverHandle)) := by
    intro e
    show lookupAssoc (W.joint_handle_map.forward.map
      (fun p => (p.1,
        (((W.joints.items.map Prod.fst).indexOf p.2, 0) : SolverHandle)))) e = _
    rw [lookupAssoc_map_value W.joint_handle_map.forward
      (fun v => (((W.joints.items.map Prod.fst).indexOf v, 0) : SolverHandle)) e]
    rfl
  -- goodness of the collider descriptors
  have hgoodc : ∀ dd ∈ W.generate_desc.colliders,
      goodColliderDesc binder graph W.generate_desc.body_handle_map dd := by
    intro dd hdd
    rw [hdcolls] at hdd
    obtain ⟨p, hpmem, rfl⟩ := List.mem_map.mp hdd
    have hkey := hcp p hpmem
    rcases hke : W.body_handle_map.key_of p.2.parent with _ | e
    · rw [hke] at hkey
      simp at hkey
    · have hval : W.body_handle_map.value_of e = some p.2.parent :=
        value_of_of_key_of W.body_handle_map hbmk p.2.parent e hke
      have hparent : (ColliderDesc.from_collider p.2 W.body_handle_map).parent = e := by
        show (W.body_handle_map.key_of p.2.parent).getD 0 = e
        rw [hke]
        rfl
      constructor
      · rw [hparent, hdmvB e, hval]
        rfl
      · intro htri
        have hsh : (ColliderDesc.from_collider p.2 W.body_handle_map).shape
            = ColliderShapeDesc.from_collider_shape p.2.shape := rfl
        rw [hsh, isTrimeshDesc_from_collider_shape] at htri
        obtain ⟨node, hnode, hval2⟩ := htm p hpmem htri
        rw [hke] at hnode
        refine ⟨node, ?_, hval2⟩
        rw [hparent]
        simpa using hnode
  -- goodness of the joint descriptors
  have hgoodj : ∀ dd ∈ W.generate_desc.joints,
      (W.generate_desc.body_handle_map.value_of dd.body1).isSome = true ∧
      (W.generate_desc.body_handle_map.value_of dd.body2).isSome = true := by
    intro dd hdd
    rw [hdjoints] at hdd
    obtain ⟨p, hpmem, rfl⟩ := List.mem_map.mp hdd
    have hkeys := hjp p hpmem
    constructor
    · rcases hke : W.body_handle_map.key_of p.2.body1 with _ | e1
      · rw [hke] at hkeys
        simp at hkeys
      · have hval : W.body_handle_map.value_of e1 = some p.2.body1 :=
          value_of_of_key_of W.body_handle_map hbmk p.2.body1 e1 hke
        have hb1 : (JointDesc.from_joint p.2 W.body_handle_map).body1 = e1 := by
          show (W.body_handle_map.key_of p.2.body1).getD 0 = e1
          rw [hke]
          rfl
        rw [hb1, hdmvB e1, hval]
        rfl
    · rcases hke : W.body_handle_map.key_of p.2.body2 with _ | e2
      · rw [hke] at hkeys
        simp at hkeys
      · have hval : W.body_handle_map.value_of e2 = some p.2.body2 :=
          value_of_of_key_of W.body_handle_map hbmk p.2.body2 e2 hke
        have hb2 : (JointDesc.from_joint p.2 W.body_handle_map).body2 = e2 := by
          show (W.body_handle_map.key_of p.2.body2).getD 0 = e2
          rw [hke]
          rfl
        rw [hb2, hdmvB e2, hval]
        rfl
  -- the three folds
  have hbfold : W.generate_desc.bodies.foldl
      (fun a de => (a.insert de.convert_to_body).1) Arena.empty
      = (⟨enumArena RigidBodyDesc.convert_to_body 0 W.generate_desc.bodies,
          W.generate_desc.bodies.length⟩ : Arena RigidBody) := by
    rw [foldl_insert_arena RigidBodyDesc.convert_to_body]
    show (⟨[] ++ enumArena RigidBodyDesc.convert_to_body 0 W.generate_desc.bodies,
      0 + W.generate_desc.bodies.length⟩ : Arena RigidBody) = _
    rw [List.nil_append, Nat.zero_add]
  obtain ⟨vals, bods2, logs2, hcfold, hshapes, hblen2, hbf2⟩ :=
    resolveColliders_fold binder graph W.generate_desc.body_handle_map
      W.generate_desc.colliders Arena.empty
      ⟨enumArena RigidBodyDesc.convert_to_body 0 W.generate_desc.bodies,
        W.generate_desc.bodies.length⟩ [] hgoodc
  obtain ⟨jvals, hjfold, hjf⟩ :=
    resolveJoints_fold W.generate_desc.body_handle_map W.generate_desc.joints
      Arena.empty hgoodj
  have hres : Physics.resolve { Physics.new with desc := some W.generate_desc } binder graph
      = some ({ Physics.new with
          desc := none
          body_handle_map := W.generate_desc.body_handle_map
          collider_handle_map := W.generate_desc.collider_handle_map
          joint_handle_map := W.generate_desc.joint_handle_map
          integration_parameters := W.generate_desc.integration_parameters
          bodies := bods2
          colliders := ⟨(Arena.empty : Arena Collider).items ++ enumArena id (Arena.empty : Arena Collider).next_index vals,
            (Arena.empty : Arena Collider).next_index + W.generate_desc.colliders.length⟩
          joints := ⟨(Arena.empty : Arena Joint).items ++ enumArena id (Arena.empty : Arena Joint).next_index jvals,
            (Arena.empty : Arena Joint).next_index + W.generate_desc.joints.length⟩ }, logs2) := by
    rw [resolve_unfold { Physics.new with desc := some W.generate_desc } binder graph
        W.generate_desc rfl rfl rfl,
      show ({ Physics.new with desc := some W.generate_desc } : Physics).bodies
        = Arena.empty from rfl,
      show ({ Physics.new with desc := some W.generate_desc } : Physics).colliders
        = Arena.empty from rfl,
      show ({ Physics.new with desc := some W.generate_desc } : Physics).joints
        = Arena.empty from rfl,
      hbfold, hcfold, hjfold]
    rfl
  refine ⟨_, logs2, hres, ?_, ?_, ?_, ?_, ?_, ?_⟩
  · show bods2.items.length = W.bodies.items.length
    rw [hblen2, enumArena_length]
    exact List.length_map W.bodies.items _
  · show (enumArena id 0 vals).length = W.colliders.items.length
    rw [enumArena_length]
    rw [← List.Forall₂.length_eq hshapes]
    exact List.length_map W.colliders.items _
  · show (enumArena id 0 jvals).length = W.joints.items.length
    rw [enumArena_length]
    rw [← List.Forall₂.length_eq hjf]
    exact List.length_map W.joints.items _
  · -- bodies observables
    intro e
    show ((W.generate_desc.body_handle_map.value_of e).bind bods2.get?).map bodyObs
      = ((W.body_handle_map.value_of e).bind W.bodies.get?).map bodyObs
    rcases hbe : W.body_handle_map.value_of e with _ | sh
    · rw [hdmvB e, hbe]
      rfl
    · rw [hdmvB e, hbe]
      have hmem := hbv2 e sh hbe
      obtain ⟨i, hgi⟩ := List.get?_of_mem hmem
      have hidx := indexOf_of_get? _ i sh hbk hgi
      obtain ⟨b, hgeti, hfind⟩ := arena_find?_of_get? W.bodies.items i sh hbk hgi
      have hlt : i < W.generate_desc.bodies.length := by
        have h1 := (List.get?_eq_some.mp hgi).1
        rw [hdbodies, List.length_map]
        simpa using h1
      have hsome : Option.map
          (fun sh2 => (((W.bodies.items.map Prod.fst).indexOf sh2, 0) : SolverHandle))
          (some sh) = some ((i, 0) : SolverHandle) := by
        show some (((W.bodies.items.map Prod.fst).indexOf sh, 0) : SolverHandle) = _
        rw [hidx]
      rw [hsome]
      show (bods2.get? (i, 0)).map bodyObs = (W.bodies.get? sh).map bodyObs
      have hLHS : (bods2.get? (i, 0)).map bodyObs
          = ((enumArena RigidBodyDesc.convert_to_body 0 W.generate_desc.bodies).find?
              (fun p => p.1 = ((i, 0) : SolverHandle))).map (fun p => bodyObs p.2) := by
        show ((bods2.items.find? (fun p => p.1 = ((i, 0) : SolverHandle))).map
            (fun p => p.2)).map bodyObs = _
        rw [Option.map_map]
        exact find?_obs_of_forall₂ bodyObs hbf2 (i, 0)
      have hef := enumArena_find? RigidBodyDesc.convert_to_body
        W.generate_desc.bodies 0 i hlt
      simp only [Nat.zero_add] at hef
      rw [hLHS, hef]
      have hRHS : W.bodies.get? sh = some b := by
        show (W.bodies.items.find? (fun p => p.1 = sh)).map (fun p => p.2) = some b
        rw [hfind]
        rfl
      rw [hRHS]
      have hdb : W.generate_desc.bodies.get ⟨i, hlt⟩
          = RigidBodyDesc.from_body b W.collider_handle_map := by
        have h1 : W.generate_desc.bodies.get? i
            = some (RigidBodyDesc.from_body b W.collider_handle_map) := by
          rw [hdbodies, List.get?_map, hgeti]
          rfl
        rw [List.get?_eq_get hlt] at h1
        injection h1
      rw [hdb]
      rfl
  · -- collider observables
    intro e
    show ((W.generate_desc.collider_handle_map.value_of e).bind
        (Arena.get? ⟨(Arena.empty : Arena Collider).items ++ enumArena id (Arena.empty : Arena Collider).next_index vals,
          (Arena.empty : Arena Collider).next_index + W.generate_desc.colliders.length⟩)).map colliderObs
      = ((W.collider_handle_map.value_of e).bind W.colliders.get?).map colliderObs
    rcases hbe : W.collider_handle_map.value_of e with _ | sh
    · rw [hdmvC e, hbe]
      rfl
    · rw [hdmvC e, hbe]
      have hmem := hcv2 e sh hbe
      obtain ⟨i, hgi⟩ := List.get?_of_mem hmem
      have hidx := indexOf_of_get? _ i sh hck hgi
      obtain ⟨c, hgeti, hfind⟩ := arena_find?_of_get? W.colliders.items i sh hck hgi
      have hltd : i < W.generate_desc.colliders.length := by
        have h1 := (List.get?_eq_some.mp hgi).1
        rw [hdcolls, List.length_map]
        simpa using h1
      have hltv : i < vals.length := by
        rw [← List.Forall₂.length_eq hshapes]
        exact hltd
      have hsome : Option.map
          (fun sh2 => (((W.colliders.items.map Prod.fst).indexOf sh2, 0) : SolverHandle))
          (some sh) = some ((i, 0) : SolverHandle) := by
        show some (((W.colliders.items.map Prod.fst).indexOf sh, 0) : SolverHandle) = _
        rw [hidx]
      rw [hsome]
      show ((Arena.get? ⟨(Arena.empty : Arena Collider).items ++ enumArena id (Arena.empty : Arena Collider).next_index vals,
          (Arena.empty : Arena Collider).next_index + W.generate_desc.colliders.length⟩)
          ((i, 0) : SolverHandle)).map colliderObs
        = (W.colliders.get? sh).map colliderObs
      have hef := enumArena_find? (id : Collider → Collider) vals 0 i hltv
      simp only [Nat.zero_add] at hef
      have hLHS : (Arena.get? ⟨(Arena.empty : Arena Collider).items ++ enumArena id (Arena.empty : Arena Collider).next_index vals,
          (Arena.empty : Arena Collider).next_index + W.generate_desc.colliders.length⟩
          ((i, 0) : SolverHandle)).map colliderObs
          = some (colliderObs (vals.get ⟨i, hltv⟩)) := by
        show ((((Arena.empty : Arena Collider).items ++ enumArena id (Arena.empty : Arena Collider).next_index vals).find?
            (fun p => p.1 = ((i, 0) : SolverHandle))).map (fun p => p.2)).map colliderObs
          = _
        rw [show (Arena.empty : Arena Collider).items ++ enumArena id (Arena.empty : Arena Collider).next_index vals
          = enumArena id 0 vals from rfl]
        rw [hef]
        rfl
      rw [hLHS]
      have hRHS : W.colliders.get? sh = some c := by
        show (W.colliders.items.find? (fun p => p.1 = sh)).map (fun p => p.2) = some c
        rw [hfind]
        rfl
      rw [hRHS]
      have hdc : W.generate_desc.colliders.get ⟨i, hltd⟩
          = ColliderDesc.from_collider c W.body_handle_map := by
        have h1 : W.generate_desc.colliders.get? i
            = some (ColliderDesc.from_collider c W.body_handle_map) := by
          rw [hdcolls, List.get?_map, hgeti]
          rfl
        rw [List.get?_eq_get hltd] at h1
        injection h1
      have hrel := (List.forall₂_iff_get.mp hshapes).2 i hltd hltv
      show some (ColliderShapeDesc.from_collider_shape (vals.get ⟨i, hltv⟩).shape)
        = some (ColliderShapeDesc.from_collider_shape c.shape)
      rw [hrel, hdc]
      rfl
  · -- joint observables
    intro e
    show ((W.generate_desc.joint_handle_map.value_of e).bind
        (Arena.get? ⟨(Arena.empty : Arena Joint).items ++ enumArena id (Arena.empty : Arena Joint).next_index jvals,
          (Arena.empty : Arena Joint).next_index + W.generate_desc.joints.length⟩)).map jointObs
      = ((W.joint_handle_map.value_of e).bind W.joints.get?).map jointObs
    rcases hbe : W.joint_handle_map.value_of e with _ | sh
    · rw [hdmvJ e, hbe]
      rfl
    · rw [hdmvJ e, hbe]
      have hmem := hjv2 e sh hbe
      obtain ⟨i, hgi⟩ := List.get?_of_mem hmem
      have hidx := indexOf_of_get? _ i sh hjk hgi
      obtain ⟨j, hgeti, hfind⟩ := arena_find?_of_get? W.joints.items i sh hjk hgi
      have hltd : i < W.generate_desc.joints.length := by
        have h1 := (List.get?_eq_some.mp hgi).1
        rw [hdjoints, List.length_map]
        simpa using h1
      have hltv : i < jvals.length := by
        rw [← List.Forall₂.length_eq hjf]
        exact hltd
      have hsome : Option.map
          (fun sh2 => (((W.joints.items.map Prod.fst).indexOf sh2, 0) : SolverHandle))
          (some sh) = some ((i, 0) : SolverHandle) := by
        show some (((W.joints.items.map Prod.fst).indexOf sh, 0) : SolverHandle) = _
        rw [hidx]
      rw [hsome]
      show ((Arena.get? ⟨(Arena.empty : Arena Joint).items ++ enumArena id (Arena.empty : Arena Joint).next_index jvals,
          (Arena.empty : Arena Joint).next_index + W.generate_desc.joints.length⟩)
          ((i, 0) : SolverHandle)).map jointObs
        = (W.joints.get? sh).map jointObs
      have hef := enumArena_find? (id : Joint → Joint) jvals 0 i hltv
      simp only [Nat.zero_add] at hef
      have hLHS : (Arena.get? ⟨(Arena.empty : Arena Joint).items ++ enumArena id (Arena.empty : Arena Joint).next_index jvals,
          (Arena.empty : Arena Joint).next_index + W.generate_desc.joints.length⟩
          ((i, 0) : SolverHandle)).map jointObs
          = some (jointObs (jvals.get ⟨i, hltv⟩)) := by
        show ((((Arena.empty : Arena Joint).items ++ enumArena id (Arena.empty : Arena Joint).next_index jvals).find?
            (fun p => p.1 = ((i, 0) : SolverHandle))).map (fun p => p.2)).map jointObs
          = _
        rw [show (Arena.empty : Arena Joint).items ++ enumArena id (Arena.empty : Arena Joint).next_index jvals
          = enumArena id 0 jvals from rfl]
        rw [hef]
        rfl
      rw [hLHS]
      have hRHS : W.joints.get? sh = some j := by
        show (W.joints.items.find? (fun p => p.1 = sh)).map (fun p => p.2) = some j
        rw [hfind]
        rfl
      rw [hRHS]
      have hdj : W.generate_desc.joints.get ⟨i, hltd⟩
          = JointDesc.from_joint j W.body_handle_map := by
        have h1 : W.generate_desc.joints.get? i
            = some (JointDesc.from_joint j W.body_handle_map) := by
          rw [hdjoints, List.get?_map, hgeti]
          rfl
        rw [List.get?_eq_get hltd] at h1
        injection h1
      have hrel := (List.forall₂_iff_get.mp hjf).2 i hltd hltv
      show some (JointParamsDesc.from_params (jvals.get ⟨i, hltv⟩).params)
        = some (JointParamsDesc.from_params j.params)
      rw [hrel.1, hdj]
      rfl

/-- C1 (counterexample to the claim as stated): for the world holding one
body and one trimesh collider whose body has no node binding, resolving the
freshly generated descriptor set on a fresh world succeeds but yields zero
colliders instead of one — the round trip is not observably equivalent for
every world. -/
theorem c1_counterexample :
    ∃ pr, Physics.resolve { Physics.new with desc := some cexRoundtripWorld.generate_desc }
        [] ⟨[]⟩ = some pr ∧
      pr.1.colliders.len = 0 ∧ cexRoundtripWorld.colliders.len = 1 := by
  exact ⟨_, rfl, rfl, rfl⟩

/-- Witness for C1: the two-body/one-ball-collider/one-joint world round
trips to an observably equivalent world. -/
theorem c1_generate_desc_resolve_roundtrip_witness :
    ∃ W2 logs,
      Physics.resolve { Physics.new with desc := some witRoundtripWorld.generate_desc }
        [] ⟨[]⟩ = some (W2, logs) ∧
      W2.bodies.len = witRoundtripWorld.bodies.len ∧
      W2.colliders.len = witRoundtripWorld.colliders.len ∧
      W2.joints.len = witRoundtripWorld.joints.len ∧
      (∀ e, (W2.body e).map bodyObs = (witRoundtripWorld.body e).map bodyObs) ∧
      (∀ e, (W2.collider e).map colliderObs
        = (witRoundtripWorld.collider e).map colliderObs) ∧
      (∀ e, (W2.joint_of e).map jointObs = (witRoundtripWorld.joint_of e).map jointObs) :=
  c1_generate_desc_resolve_roundtrip witRoundtripWorld [] ⟨[]⟩
    (by decide) (by decide) (by decide) (by decide) (by decide) (by decide)
    (by decide) (by decide) (by decide) (by decide) (by decide)
    (by
      intro p hp htri
      have hp2 : p = ((0, 0),
          { defaultBuiltCollider (ColliderShape.ball 1) with parent := (0, 0) }) := by
        simpa [witRoundtripWorld] using hp
      subst hp2
      exact absurd htri (by decide))
